import Mathlib

/-!
Verification of the Aviatrix provider resources: device transit gateway attachment and firewall instance

A shallow embedding of the two resource adapters

* `aviatrix/resource_aviatrix_device_transit_gateway_attachment.go`
* `aviatrix/resource_aviatrix_firewall_instance.go`

The record `*schema.ResourceData` becomes a structure holding the ID and one
field per schema key; every adapter function returns the record as it stands
when the Go function returns (mutations survive an error return), the error
returned, the state of the remote client and the list of client operations
invoked.  The remote client `*goaviatrix.Client` is a parameter: a structure of
state-passing functions.
-/

namespace Aviatrix

/-! ## Go errors -/

/-- Go `error` values that flow through the two adapters.  `ErrNotFound` is the
sentinel `goaviatrix.ErrNotFound`, `remote` any other error produced by the
client, `numError` a `*strconv.NumError`, `errorf` the result of `fmt.Errorf`
without an error argument and `wrap` the result of `fmt.Errorf` whose last verb
prints an underlying error. -/
inductive GoError where
  | ErrNotFound : GoError
  | remote (msg : String) : GoError
  | numError (fn : String) (num : String) (reason : String) : GoError
  | errorf (msg : String) : GoError
  | wrap (msg : String) (cause : GoError) : GoError
  deriving DecidableEq, Repr

deriving instance DecidableEq for Except

/-! ## strconv -/

/-- The decimal digit character of `d` (for `d < 10`). -/
def digitChar (d : Nat) : Char := Char.ofNat (48 + d)

/-- Decimal digits of `n`, most significant first; `fuel` bounds the number of
digits produced (a 64-bit value has at most 20). -/
def natDigits : Nat → Nat → List Char
  | 0, _ => []
  | fuel + 1, n =>
    if n < 10 then [digitChar n] else natDigits fuel (n / 10) ++ [digitChar (n % 10)]

/-- Range of the Go type `int` on a 64-bit platform. -/
def isGoInt (n : Int) : Prop := -(2 : Int) ^ 63 ≤ n ∧ n < (2 : Int) ^ 63

instance (n : Int) : Decidable (isGoInt n) := by unfold isGoInt; infer_instance

/-- Function `strconv.Itoa`: base-10 text of an `int`, with a leading `-` for
negative values. -/
def Itoa (n : Int) : String :=
  if n < 0 then String.mk ('-' :: natDigits 20 n.natAbs) else String.mk (natDigits 20 n.natAbs)

/-- Function `strconv.FormatBool`. -/
def FormatBool (b : Bool) : String := if b then "true" else "false"

/-- Function `strconv.ParseBool`: accepts 1, t, T, TRUE, true, True, 0, f, F,
FALSE, false, False; any other text is a syntax error. -/
def ParseBool (str : String) : Except GoError Bool :=
  if str = "1" ∨ str = "t" ∨ str = "T" ∨ str = "TRUE" ∨ str = "true" ∨ str = "True" then
    .ok true
  else if str = "0" ∨ str = "f" ∨ str = "F" ∨ str = "FALSE" ∨ str = "false" ∨ str = "False" then
    .ok false
  else .error (.numError "ParseBool" str "invalid syntax")

/-- Value of a decimal digit character. -/
def digitVal (c : Char) : Nat := c.toNat - 48

/-- Digit loop of `strconv.ParseUint` for base 10 and 64 bits, which stops at the
first offending character: `none` when that character is not a decimal digit,
`some none` when adding it leaves the unsigned 64-bit range, `some (some n)`
when the whole text was consumed. -/
def parseUintLoop : List Char → Nat → Option (Option Nat)
  | [], n => some (some n)
  | c :: cs, n =>
    if c.isDigit then
      if n * 10 + digitVal c < 2 ^ 64 then parseUintLoop cs (n * 10 + digitVal c)
      else some none
    else none

/-- The digits of `strconv.Atoi` after the optional sign has been removed:
`s` is the whole text (quoted in the error), `neg` tells whether the sign was
`-`.  At least one digit is required, and the value has to fit `int`. -/
def atoiDigits (s : String) (neg : Bool) (ds : List Char) : Except GoError Int :=
  match ds with
  | [] => .error (.numError "Atoi" s "invalid syntax")
  | _ :: _ =>
    match parseUintLoop ds 0 with
    | none => .error (.numError "Atoi" s "invalid syntax")
    | some none => .error (.numError "Atoi" s "value out of range")
    | some (some un) =>
      if neg = false ∧ 2 ^ 63 ≤ un then .error (.numError "Atoi" s "value out of range")
      else if neg = true ∧ 2 ^ 63 < un then .error (.numError "Atoi" s "value out of range")
      else .ok (if neg then -(un : Int) else (un : Int))

/-- Function `strconv.Atoi` on a 64-bit platform: an optional sign followed by
one or more decimal digits, accepted when the value fits `int`. -/
def Atoi (s : String) : Except GoError Int :=
  match s.data with
  | [] => .error (.numError "Atoi" s "invalid syntax")
  | c :: cs =>
    if c = '-' then atoiDigits s true cs
    else if c = '+' then atoiDigits s false cs
    else atoiDigits s false (c :: cs)

/-! ## Remote representations (package goaviatrix) -/

/-- Struct `goaviatrix.DeviceTransitGatewayAttachment`, restricted to the fields
the adapter reads or writes; the zero value of every field is the empty
string. -/
structure DeviceTransitGatewayAttachment where
  DeviceName : String := ""
  TransitGatewayName : String := ""
  ConnectionName : String := ""
  RoutingProtocol : String := ""
  TransitGatewayBgpAsn : String := ""
  DeviceBgpAsn : String := ""
  Phase1Authentication : String := ""
  Phase1DHGroups : String := ""
  Phase1Encryption : String := ""
  Phase2Authentication : String := ""
  Phase2DHGroups : String := ""
  Phase2Encryption : String := ""
  EnableGlobalAccelerator : String := ""
  PreSharedKey : String := ""
  LocalTunnelIP : String := ""
  RemoteTunnelIP : String := ""
  deriving DecidableEq, Repr

/-- Struct `goaviatrix.FirewallInstance`, restricted to the fields the adapter
reads or writes. -/
structure FirewallInstance where
  VpcID : String := ""
  GwName : String := ""
  FirewallName : String := ""
  FirewallImage : String := ""
  FirewallImageVersion : String := ""
  FirewallSize : String := ""
  EgressSubnet : String := ""
  ManagementSubnet : String := ""
  KeyName : String := ""
  IamRole : String := ""
  BootstrapBucketName : String := ""
  Username : String := ""
  Password : String := ""
  InstanceID : String := ""
  AvailabilityZone : String := ""
  CloudVendor : String := ""
  LanInterface : String := ""
  ManagementInterface : String := ""
  EgressInterface : String := ""
  ManagementPublicIP : String := ""
  deriving DecidableEq, Repr

/-- The remote control client `*goaviatrix.Client`, as far as the two adapters
use it.  `σ` is the state of the remote system; every operation returns the
state after the call together with the Go result (`none` for a nil error).
`AZURE` is the constant `goaviatrix.AZURE`. -/
structure Client (σ : Type) where
  AZURE : Int
  CreateDeviceTransitGatewayAttachment :
    σ → DeviceTransitGatewayAttachment → σ × Option GoError
  GetDeviceTransitGatewayAttachment :
    σ → DeviceTransitGatewayAttachment → σ × Except GoError DeviceTransitGatewayAttachment
  DeleteDeviceAttachment : σ → String → σ × Option GoError
  GetVpcCloudTypeById : σ → String → σ × Except GoError Int
  CreateFirewallInstance : σ → FirewallInstance → σ × Except GoError String
  GetFirewallInstance : σ → FirewallInstance → σ × Except GoError FirewallInstance
  DeleteFirewallInstance : σ → FirewallInstance → σ × Option GoError

/-- One invocation of a client operation, with the argument passed. -/
inductive Call where
  | CreateDeviceTransitGatewayAttachment (a : DeviceTransitGatewayAttachment)
  | GetDeviceTransitGatewayAttachment (a : DeviceTransitGatewayAttachment)
  | DeleteDeviceAttachment (connectionName : String)
  | GetVpcCloudTypeById (vpcID : String)
  | CreateFirewallInstance (f : FirewallInstance)
  | GetFirewallInstance (f : FirewallInstance)
  | DeleteFirewallInstance (f : FirewallInstance)
  deriving DecidableEq, Repr

/-- What a call of an adapter function leaves behind: the remote state, the
record `d`, the error returned (`none` for nil) and the client operations
invoked, in order. -/
structure Outcome (σ : Type) (ρ : Type) where
  remote : σ
  d : ρ
  err : Option GoError
  calls : List Call

/-! ## Device transit gateway attachment -/

/-- The record `*schema.ResourceData` of the attachment resource: its ID and the
value `d.Get` yields for every key of the schema. -/
structure AttachmentData where
  id : String := ""
  device_name : String := ""
  transit_gateway_name : String := ""
  connection_name : String := ""
  transit_gateway_bgp_asn : Int := 0
  device_bgp_asn : Int := 0
  phase1_authentication : String := ""
  phase1_dh_groups : Int := 0
  phase1_encryption : String := ""
  phase2_authentication : String := ""
  phase2_dh_groups : Int := 0
  phase2_encryption : String := ""
  enable_global_accelerator : Bool := false
  pre_shared_key : String := ""
  local_tunnel_ip : String := ""
  remote_tunnel_ip : String := ""
  deriving DecidableEq, Repr

/-- Method `d.SetId`. -/
def AttachmentData.SetId (d : AttachmentData) (v : String) : AttachmentData := { d with id := v }

def marshalDeviceTransitGatewayAttachmentInput (d : AttachmentData) :
    DeviceTransitGatewayAttachment :=
  { DeviceName := d.device_name
    TransitGatewayName := d.transit_gateway_name
    ConnectionName := d.connection_name
    RoutingProtocol := "bgp"
    TransitGatewayBgpAsn := Itoa d.transit_gateway_bgp_asn
    DeviceBgpAsn := Itoa d.device_bgp_asn
    Phase1Authentication := d.phase1_authentication
    Phase1DHGroups := Itoa d.phase1_dh_groups
    Phase1Encryption := d.phase1_encryption
    Phase2Authentication := d.phase2_authentication
    Phase2DHGroups := Itoa d.phase2_dh_groups
    Phase2Encryption := d.phase2_encryption
    EnableGlobalAccelerator := FormatBool d.enable_global_accelerator
    PreSharedKey := d.pre_shared_key
    LocalTunnelIP := d.local_tunnel_ip
    RemoteTunnelIP := d.remote_tunnel_ip }

def resourceAviatrixDeviceTransitGatewayAttachmentCreate {σ : Type} (client : Client σ)
    (s : σ) (d : AttachmentData) : Outcome σ AttachmentData :=
  let attachment := marshalDeviceTransitGatewayAttachmentInput d
  let calls := [Call.CreateDeviceTransitGatewayAttachment attachment]
  match client.CreateDeviceTransitGatewayAttachment s attachment with
  | (s1, some err) =>
    ⟨s1, d, some (.wrap "could not create transit gateway and device attachment" err), calls⟩
  | (s1, none) => ⟨s1, d.SetId attachment.ConnectionName, none, calls⟩

/-- The part of Read that follows a successful lookup: every field is copied
from the remote attachment, the text fields being parsed in source order, and
an error return leaves the fields set so far; a `d.Set` under a guard gives the
field the new value when the guard holds and its current value otherwise. -/
def attachmentReadFields (isImport : Bool) (d : AttachmentData)
    (attachment : DeviceTransitGatewayAttachment) : AttachmentData × Option GoError :=
  let d := { d with device_name := attachment.DeviceName }
  let d := { d with transit_gateway_name := attachment.TransitGatewayName }
  let d := { d with connection_name := attachment.ConnectionName }
  match Atoi attachment.TransitGatewayBgpAsn with
  | .error err => (d, some (.wrap "could not convert transitGatewayBgpAsn to int" err))
  | .ok transitGatewayBgpAsn =>
  let d := { d with transit_gateway_bgp_asn := transitGatewayBgpAsn }
  match Atoi attachment.DeviceBgpAsn with
  | .error err => (d, some (.wrap "could not convert deviceBgpAsn to int" err))
  | .ok deviceBgpAsn =>
  let d := { d with device_bgp_asn := deviceBgpAsn }
  let d := { d with phase1_authentication := attachment.Phase1Authentication }
  match Atoi attachment.Phase1DHGroups with
  | .error err => (d, some (.wrap "could not convert phase1DhGroups to int" err))
  | .ok phase1DhGroups =>
  let d := { d with phase1_dh_groups := phase1DhGroups }
  let d := { d with phase1_encryption := attachment.Phase1Encryption }
  let d := { d with phase2_authentication := attachment.Phase2Authentication }
  match Atoi attachment.Phase2DHGroups with
  | .error err => (d, some (.wrap "could not convert phase2DhGroups to int" err))
  | .ok phase2DhGroups =>
  let d := { d with phase2_dh_groups := phase2DhGroups }
  let d := { d with phase2_encryption := attachment.Phase2Encryption }
  match ParseBool attachment.EnableGlobalAccelerator with
  | .error err => (d, some (.wrap "could not convert enableGlobalAccelerator to bool" err))
  | .ok enableGlobalAccelerator =>
  let d := { d with enable_global_accelerator := enableGlobalAccelerator }
  let d := { d with local_tunnel_ip :=
    if isImport = true ∨ d.local_tunnel_ip ≠ "" then attachment.LocalTunnelIP
    else d.local_tunnel_ip }
  let d := { d with remote_tunnel_ip :=
    if isImport = true ∨ d.remote_tunnel_ip ≠ "" then attachment.RemoteTunnelIP
    else d.remote_tunnel_ip }
  (d.SetId attachment.ConnectionName, none)

def resourceAviatrixDeviceTransitGatewayAttachmentRead {σ : Type} (client : Client σ)
    (s : σ) (d : AttachmentData) : Outcome σ AttachmentData :=
  let connectionName := d.connection_name
  let isImport : Bool := connectionName = ""
  let d := if isImport then d.SetId d.id else d
  let connectionName := if isImport then d.id else connectionName
  let attachment : DeviceTransitGatewayAttachment := { ConnectionName := connectionName }
  let calls := [Call.GetDeviceTransitGatewayAttachment attachment]
  match client.GetDeviceTransitGatewayAttachment s attachment with
  | (s1, .error err) =>
    if err = GoError.ErrNotFound then ⟨s1, d.SetId "", none, calls⟩
    else ⟨s1, d, some (.wrap
      ("could not find device_transit_gateway_attachment " ++ connectionName) err), calls⟩
  | (s1, .ok attachment) =>
    let r := attachmentReadFields isImport d attachment
    ⟨s1, r.1, r.2, calls⟩

def resourceAviatrixDeviceTransitGatewayAttachmentDelete {σ : Type} (client : Client σ)
    (s : σ) (d : AttachmentData) : Outcome σ AttachmentData :=
  let cn := d.connection_name
  let calls := [Call.DeleteDeviceAttachment cn]
  match client.DeleteDeviceAttachment s cn with
  | (s1, some err) =>
    ⟨s1, d, some (.wrap "could not delete transit gateway and device attachment" err), calls⟩
  | (s1, none) => ⟨s1, d, none, calls⟩

/-! ## Firewall instance -/

/-- The record `*schema.ResourceData` of the firewall instance resource: its ID
and the value `d.Get` yields for every key of the schema. -/
structure FirewallData where
  id : String := ""
  vpc_id : String := ""
  firenet_gw_name : String := ""
  firewall_name : String := ""
  firewall_image : String := ""
  firewall_size : String := ""
  egress_subnet : String := ""
  management_subnet : String := ""
  firewall_image_version : String := ""
  key_name : String := ""
  iam_role : String := ""
  bootstrap_bucket_name : String := ""
  username : String := ""
  password : String := ""
  zone : String := ""
  instance_id : String := ""
  lan_interface : String := ""
  management_interface : String := ""
  egress_interface : String := ""
  public_ip : String := ""
  deriving DecidableEq, Repr

/-- Method `d.SetId`. -/
def FirewallData.SetId (d : FirewallData) (v : String) : FirewallData := { d with id := v }

/-- The part of Read that follows a successful lookup: the fields are copied
from the remote object `fI` in source order; a `d.Set` under a guard gives the
field the new value when the guard holds and its current value otherwise. -/
def firewallReadFields (isImport : Bool) (d : FirewallData) (fI : FirewallInstance) :
    FirewallData :=
  let d := { d with vpc_id := fI.VpcID }
  let d := { d with firenet_gw_name := fI.GwName }
  let d := { d with firewall_name := fI.FirewallName }
  let d := { d with firewall_image := fI.FirewallImage }
  let d := { d with firewall_size := fI.FirewallSize }
  let d := { d with instance_id := fI.InstanceID }
  let d := { d with egress_subnet := fI.EgressSubnet }
  let d := { d with management_subnet := fI.ManagementSubnet }
  let d := { d with zone :=
    if (d.zone ≠ "" ∨ isImport = true) ∧ fI.AvailabilityZone ≠ "AvailabilitySet" ∧
      fI.AvailabilityZone ≠ "" ∧ fI.CloudVendor = "Azure ARM" then
    "az-" ++ fI.AvailabilityZone else d.zone }
  let d := { d with lan_interface := fI.LanInterface }
  let d := { d with management_interface := fI.ManagementInterface }
  let d := { d with egress_interface := fI.EgressInterface }
  let d := { d with public_ip := fI.ManagementPublicIP }
  let d := { d with firewall_image_version :=
    if fI.FirewallImageVersion ≠ "" then fI.FirewallImageVersion else d.firewall_image_version }
  let d := { d with key_name := if d.key_name ≠ "" then fI.KeyName else d.key_name }
  let d := { d with iam_role := if fI.IamRole ≠ "" then fI.IamRole else d.iam_role }
  let d := { d with bootstrap_bucket_name :=
    if fI.BootstrapBucketName ≠ "" then fI.BootstrapBucketName else d.bootstrap_bucket_name }
  let d := { d with username := if fI.Username ≠ "" then fI.Username else d.username }
  d

def resourceAviatrixFirewallInstanceRead {σ : Type} (client : Client σ)
    (s : σ) (d : FirewallData) : Outcome σ FirewallData :=
  let instanceID := d.instance_id
  let isImport : Bool := instanceID = ""
  let d := if isImport then ({ d with instance_id := d.id } : FirewallData).SetId d.id else d
  let firewallInstance : FirewallInstance := { InstanceID := d.instance_id }
  let calls := [Call.GetFirewallInstance firewallInstance]
  match client.GetFirewallInstance s firewallInstance with
  | (s1, .error err) =>
    if err = GoError.ErrNotFound then ⟨s1, d.SetId "", none, calls⟩
    else ⟨s1, d, some (.wrap "couldn't find Firewall Instance" err), calls⟩
  | (s1, .ok fI) => ⟨s1, firewallReadFields isImport d fI, none, calls⟩

def resourceAviatrixFirewallInstanceCreate {σ : Type} (client : Client σ)
    (s : σ) (d : FirewallData) : Outcome σ FirewallData :=
  let firewallInstance : FirewallInstance :=
    { VpcID := d.vpc_id
      GwName := d.firenet_gw_name
      FirewallName := d.firewall_name
      FirewallImage := d.firewall_image
      FirewallImageVersion := d.firewall_image_version
      FirewallSize := d.firewall_size
      EgressSubnet := d.egress_subnet
      ManagementSubnet := d.management_subnet
      KeyName := d.key_name
      IamRole := d.iam_role
      BootstrapBucketName := d.bootstrap_bucket_name
      Username := d.username
      Password := d.password }
  let calls1 := [Call.GetVpcCloudTypeById firewallInstance.VpcID]
  match client.GetVpcCloudTypeById s firewallInstance.VpcID with
  | (s1, .error err) =>
    if err = GoError.ErrNotFound then
      ⟨s1, d, some (.wrap ("could not find the vpc with vpc_id=" ++ firewallInstance.VpcID) err),
        calls1⟩
    else
      ⟨s1, d, some (.wrap ("could get the cloud type from the vpc_id=" ++ firewallInstance.VpcID)
        err), calls1⟩
  | (s1, .ok cloudType) =>
    let zone := d.zone
    if zone ≠ "" ∧ cloudType ≠ client.AZURE then
      ⟨s1, d, some (.errorf "'zone' attribute is only valid for AZURE"), calls1⟩
    else
      let firewallInstance :=
        if zone ≠ "" then
          { firewallInstance with
            EgressSubnet := firewallInstance.EgressSubnet ++ "~~" ++ zone ++ "~~"
            ManagementSubnet := firewallInstance.ManagementSubnet ++ "~~" ++ zone ++ "~~" }
        else firewallInstance
      let calls2 := calls1 ++ [Call.CreateFirewallInstance firewallInstance]
      match client.CreateFirewallInstance s1 firewallInstance with
      | (s2, .error err) =>
        if err = GoError.ErrNotFound then
          ⟨s2, d, some (.errorf "failed to get firewall instance information"), calls2⟩
        else
          ⟨s2, d, some (.wrap "failed to create a new firewall instance" err), calls2⟩
      | (s2, .ok instanceID) =>
        let d := d.SetId instanceID
        let r := resourceAviatrixFirewallInstanceRead client s2 d
        ⟨r.remote, r.d, r.err, calls2 ++ r.calls⟩

def resourceAviatrixFirewallInstanceDelete {σ : Type} (client : Client σ)
    (s : σ) (d : FirewallData) : Outcome σ FirewallData :=
  let firewallInstance : FirewallInstance :=
    { VpcID := d.vpc_id
      InstanceID := d.instance_id }
  let calls := [Call.DeleteFirewallInstance firewallInstance]
  match client.DeleteFirewallInstance s firewallInstance with
  | (s1, some err) => ⟨s1, d, some (.wrap "failed to delete firewall instance" err), calls⟩
  | (s1, none) => ⟨s1, d, none, calls⟩

/-- The request `firewallInstance` as Create hands it to
`CreateFirewallInstance`: the user-supplied fields, the two subnets carrying
the encoded zone when a zone is given. -/
def firewallInstanceRequest (d : FirewallData) : FirewallInstance :=
  { VpcID := d.vpc_id
    GwName := d.firenet_gw_name
    FirewallName := d.firewall_name
    FirewallImage := d.firewall_image
    FirewallImageVersion := d.firewall_image_version
    FirewallSize := d.firewall_size
    EgressSubnet := if d.zone ≠ "" then d.egress_subnet ++ "~~" ++ d.zone ++ "~~"
      else d.egress_subnet
    ManagementSubnet := if d.zone ≠ "" then d.management_subnet ++ "~~" ++ d.zone ++ "~~"
      else d.management_subnet
    KeyName := d.key_name
    IamRole := d.iam_role
    BootstrapBucketName := d.bootstrap_bucket_name
    Username := d.username
    Password := d.password }

/-! ## Example clients -/

/-- State of the in-memory remote system: the stored attachments and firewall
instances, most recent first. -/
structure Remote where
  attachments : List DeviceTransitGatewayAttachment := []
  firewalls : List FirewallInstance := []
  deriving DecidableEq, Repr

/-- An in-memory client.  It stores the attachment it is asked to create and
returns it unchanged to a lookup by connection name; it reports `cloudType` for
every VPC, stores the firewall instance request under the identifier `newID`
and returns it to a lookup by instance identifier.  A lookup that finds nothing
reports `ErrNotFound`.  The value of `AZURE` is an example value. -/
def memClient (cloudType : Int) (newID : String) : Client Remote where
  AZURE := 8
  CreateDeviceTransitGatewayAttachment := fun s a =>
    ({ s with attachments := a :: s.attachments }, none)
  GetDeviceTransitGatewayAttachment := fun s q =>
    match s.attachments.find? (fun a => a.ConnectionName = q.ConnectionName) with
    | some a => (s, .ok a)
    | none => (s, .error .ErrNotFound)
  DeleteDeviceAttachment := fun s cn =>
    ({ s with attachments := s.attachments.filter (fun a => a.ConnectionName ≠ cn) }, none)
  GetVpcCloudTypeById := fun s _ => (s, .ok cloudType)
  CreateFirewallInstance := fun s f =>
    ({ s with firewalls := { f with InstanceID := newID } :: s.firewalls }, .ok newID)
  GetFirewallInstance := fun s q =>
    match s.firewalls.find? (fun f => f.InstanceID = q.InstanceID) with
    | some f => (s, .ok f)
    | none => (s, .error .ErrNotFound)
  DeleteFirewallInstance := fun s q =>
    ({ s with firewalls := s.firewalls.filter (fun f => f.InstanceID ≠ q.InstanceID) }, none)

/-- A stateless client that gives the same answer to every call of an
operation; deletions succeed.  The value of `AZURE` is an example value. -/
def fixedClient (createAttachment : Option GoError)
    (getAttachment : Except GoError DeviceTransitGatewayAttachment)
    (cloudType : Except GoError Int) (createFirewall : Except GoError String)
    (getFirewall : Except GoError FirewallInstance) : Client Unit where
  AZURE := 8
  CreateDeviceTransitGatewayAttachment := fun _ _ => ((), createAttachment)
  GetDeviceTransitGatewayAttachment := fun _ _ => ((), getAttachment)
  DeleteDeviceAttachment := fun _ _ => ((), none)
  GetVpcCloudTypeById := fun _ _ => ((), cloudType)
  CreateFirewallInstance := fun _ _ => ((), createFirewall)
  GetFirewallInstance := fun _ _ => ((), getFirewall)
  DeleteFirewallInstance := fun _ _ => ((), none)

/-! ## Record states -/

/-- The record an import hands to Read: the externally supplied ID and no field
set. -/
def AttachmentData.imported (id : String) : AttachmentData := { id := id }

/-- The record an import hands to Read: the externally supplied ID and no field
set. -/
def FirewallData.imported (id : String) : FirewallData := { id := id }

/-- Record states of the attachment resource reachable by an import, by a Create
that returns no error and leaves a non-empty ID, and by a Read of a reachable
state that returns no error and leaves a non-empty ID. -/
inductive AttachmentReachable {σ : Type} (client : Client σ) : AttachmentData → Prop where
  | imported (id : String) : AttachmentReachable client (AttachmentData.imported id)
  | created (s : σ) (d : AttachmentData) :
    (resourceAviatrixDeviceTransitGatewayAttachmentCreate client s d).err = none →
    (resourceAviatrixDeviceTransitGatewayAttachmentCreate client s d).d.id ≠ "" →
    AttachmentReachable client (resourceAviatrixDeviceTransitGatewayAttachmentCreate client s d).d
  | refreshed (s : σ) (d : AttachmentData) :
    AttachmentReachable client d →
    (resourceAviatrixDeviceTransitGatewayAttachmentRead client s d).err = none →
    (resourceAviatrixDeviceTransitGatewayAttachmentRead client s d).d.id ≠ "" →
    AttachmentReachable client (resourceAviatrixDeviceTransitGatewayAttachmentRead client s d).d

/-- Record states of the firewall instance resource reachable by an import, by a
Create on a record whose computed `instance_id` is still unset that returns no
error and leaves a non-empty ID, and by a Read of a reachable state that returns
no error and leaves a non-empty ID. -/
inductive FirewallReachable {σ : Type} (client : Client σ) : FirewallData → Prop where
  | imported (id : String) : FirewallReachable client (FirewallData.imported id)
  | created (s : σ) (d : FirewallData) :
    d.instance_id = "" →
    (resourceAviatrixFirewallInstanceCreate client s d).err = none →
    (resourceAviatrixFirewallInstanceCreate client s d).d.id ≠ "" →
    FirewallReachable client (resourceAviatrixFirewallInstanceCreate client s d).d
  | refreshed (s : σ) (d : FirewallData) :
    FirewallReachable client d →
    (resourceAviatrixFirewallInstanceRead client s d).err = none →
    (resourceAviatrixFirewallInstanceRead client s d).d.id ≠ "" →
    FirewallReachable client (resourceAviatrixFirewallInstanceRead client s d).d

/-- A client whose firewall lookup answers with the object that was asked for:
the instance identifier of the object returned is the one in the request. -/
def KeyFaithful {σ : Type} (client : Client σ) : Prop :=
  ∀ (s : σ) (q fI : FirewallInstance),
    (client.GetFirewallInstance s q).2 = .ok fI → fI.InstanceID = q.InstanceID

/-! ## Example records -/

/-- The attachment of the scenario: connection `conn1` with the optional fields
at their defaults. -/
def conn1 : AttachmentData :=
  { device_name := "device1"
    transit_gateway_name := "transit1"
    connection_name := "conn1"
    transit_gateway_bgp_asn := 65000
    device_bgp_asn := 65001
    phase1_authentication := "SHA-256"
    phase1_dh_groups := 14
    phase1_encryption := "AES-256-CBC"
    phase2_authentication := "HMAC-SHA-256"
    phase2_dh_groups := 14
    phase2_encryption := "AES-256-CBC"
    enable_global_accelerator := false
    pre_shared_key := "secret" }

/-- A firewall instance configuration without a zone. -/
def fw1 : FirewallData :=
  { vpc_id := "vpc-1"
    firenet_gw_name := "gw1"
    firewall_name := "fw1"
    firewall_image := "image1"
    firewall_size := "m5.xlarge"
    egress_subnet := "10.0.1.0/24"
    management_subnet := "10.0.2.0/24"
    key_name := "key1" }

/-- The configuration `fw1` with a zone. -/
def fw1Zone : FirewallData := { fw1 with zone := "az-1" }

/-! ## Facts about the text conversions -/

theorem digitChar_isDigit (d : Nat) (h : d < 10) : (digitChar d).isDigit = true := by
  interval_cases d <;> decide

theorem digitVal_digitChar (d : Nat) (h : d < 10) : digitVal (digitChar d) = d := by
  interval_cases d <;> decide

theorem isDigit_ne_minus (c : Char) (h : c.isDigit = true) : c ≠ '-' := by
  intro hc
  subst hc
  exact absurd h (by decide)

theorem isDigit_ne_plus (c : Char) (h : c.isDigit = true) : c ≠ '+' := by
  intro hc
  subst hc
  exact absurd h (by decide)

theorem parseUintLoop_append (xs ys : List Char) (n m : Nat)
    (h : parseUintLoop xs n = some (some m)) :
    parseUintLoop (xs ++ ys) n = parseUintLoop ys m := by
  induction xs generalizing n with
  | nil =>
    simp only [parseUintLoop, Option.some.injEq] at h
    subst h
    rfl
  | cons c cs ih =>
    rw [parseUintLoop] at h
    rw [List.cons_append, parseUintLoop]
    by_cases hc : c.isDigit = true
    · by_cases hb : n * 10 + digitVal c < 2 ^ 64
      · rw [if_pos hc, if_pos hb] at h ⊢
        exact ih _ h
      · rw [if_pos hc, if_neg hb] at h
        cases h
    · rw [if_neg hc] at h
      cases h

theorem parseUintLoop_natDigits (fuel n : Nat) (h : n < 10 ^ fuel) (hb : n < 2 ^ 64) :
    parseUintLoop (natDigits fuel n) 0 = some (some n) := by
  induction fuel generalizing n with
  | zero => simp at h; subst h; rfl
  | succ f ih =>
    unfold natDigits
    by_cases h10 : n < 10
    · simp only [h10, if_true, parseUintLoop, digitChar_isDigit n h10,
        digitVal_digitChar n h10]
      have : 0 * 10 + n < 2 ^ 64 := by omega
      rw [if_pos this]
      simp
    · have hq : n / 10 < 10 ^ f := by
        rw [pow_succ] at h
        exact Nat.div_lt_of_lt_mul (by omega)
      have hr : n % 10 < 10 := Nat.mod_lt _ (by norm_num)
      have hq2 : n / 10 < 2 ^ 64 := by omega
      simp only [h10, if_false]
      rw [parseUintLoop_append _ _ _ _ (ih _ hq hq2)]
      have hn : n / 10 * 10 + n % 10 = n := by omega
      simp only [parseUintLoop, digitChar_isDigit _ hr, digitVal_digitChar _ hr, hn, hb,
        if_true]

theorem natDigits_head (fuel n : Nat) :
    ∃ c cs, natDigits (fuel + 1) n = c :: cs ∧ c.isDigit = true := by
  induction fuel generalizing n with
  | zero =>
    unfold natDigits
    by_cases h10 : n < 10
    · exact ⟨digitChar n, [], by simp [h10], digitChar_isDigit n h10⟩
    · refine ⟨digitChar (n % 10), [], by simp [h10, natDigits], ?_⟩
      exact digitChar_isDigit _ (Nat.mod_lt _ (by norm_num))
  | succ f ih =>
    unfold natDigits
    by_cases h10 : n < 10
    · exact ⟨digitChar n, [], by simp [h10], digitChar_isDigit n h10⟩
    · obtain ⟨c, cs, hcs, hc⟩ := ih (n / 10)
      exact ⟨c, cs ++ [digitChar (n % 10)], by simp [h10, hcs], hc⟩

/-- Parsing the text of an `int` gives the `int` back. -/
theorem Atoi_Itoa (n : Int) (h : isGoInt n) : Atoi (Itoa n) = .ok n := by
  obtain ⟨hlo, hhi⟩ := h
  obtain ⟨c, cs, hcs, hc⟩ := natDigits_head 19 n.natAbs
  have hparse : parseUintLoop (natDigits 20 n.natAbs) 0 = some (some n.natAbs) := by
    apply parseUintLoop_natDigits <;> omega
  by_cases hn : n < 0
  · simp only [Itoa, hn, if_true, Atoi, atoiDigits]
    rw [hcs] at hparse ⊢
    simp only [hparse]
    have h1 : ¬ (2 ^ 63 < n.natAbs) := by omega
    have h2 : -(n.natAbs : Int) = n := by omega
    rw [if_neg (by simp), if_neg (fun h => h1 h.2), h2]
  · simp only [Itoa, hn, if_false, Atoi, atoiDigits]
    rw [hcs] at hparse ⊢
    simp only [isDigit_ne_minus c hc, isDigit_ne_plus c hc, if_false, hparse]
    have h1 : ¬ (2 ^ 63 ≤ n.natAbs) := by omega
    have h2 : (n.natAbs : Int) = n := by omega
    rw [if_neg (fun h => h1 h.2), if_neg (by simp)]
    simp only [Bool.false_eq_true, if_false, h2]

/-- Parsing the text of a boolean gives the boolean back. -/
theorem ParseBool_FormatBool (b : Bool) : ParseBool (FormatBool b) = .ok b := by
  cases b <;> decide


/-! ## Shape of the adapter functions after the client has answered -/

theorem AttachmentData.SetId_id (d : AttachmentData) : d.SetId d.id = d := rfl

theorem attachmentRead_error {σ : Type} (client : Client σ) (s : σ) (d : AttachmentData)
    (e : GoError)
    (h : (client.GetDeviceTransitGatewayAttachment s
      { ConnectionName := if d.connection_name = "" then d.id else d.connection_name }).2
        = .error e) :
    (resourceAviatrixDeviceTransitGatewayAttachmentRead client s d).err
        = (if e = GoError.ErrNotFound then none else some (.wrap
            ("could not find device_transit_gateway_attachment " ++
              (if d.connection_name = "" then d.id else d.connection_name)) e)) ∧
      (resourceAviatrixDeviceTransitGatewayAttachmentRead client s d).d
        = (if e = GoError.ErrNotFound then d.SetId "" else d) := by
  unfold resourceAviatrixDeviceTransitGatewayAttachmentRead
  by_cases hc : d.connection_name = "" <;> simp only [hc, decide_True, decide_False, if_true,
      if_false, AttachmentData.SetId_id, Bool.false_eq_true] at h ⊢ <;>
    (split
     · next s1 err heq =>
        rw [heq] at h
        cases h
        by_cases he : e = GoError.ErrNotFound <;> simp [he]
     · next s1 a heq =>
        rw [heq] at h
        cases h)

theorem attachmentRead_ok {σ : Type} (client : Client σ) (s : σ) (d : AttachmentData)
    (a : DeviceTransitGatewayAttachment)
    (h : (client.GetDeviceTransitGatewayAttachment s
      { ConnectionName := if d.connection_name = "" then d.id else d.connection_name }).2
        = .ok a) :
    (resourceAviatrixDeviceTransitGatewayAttachmentRead client s d).err
        = (attachmentReadFields (decide (d.connection_name = "")) d a).2 ∧
      (resourceAviatrixDeviceTransitGatewayAttachmentRead client s d).d
        = (attachmentReadFields (decide (d.connection_name = "")) d a).1 := by
  unfold resourceAviatrixDeviceTransitGatewayAttachmentRead
  by_cases hc : d.connection_name = "" <;> simp only [hc, decide_True, decide_False, if_true,
      if_false, AttachmentData.SetId_id, Bool.false_eq_true] at h ⊢ <;>
    (split
     · next s1 err heq =>
        rw [heq] at h
        cases h
     · next s1 a1 heq =>
        rw [heq] at h
        cases h
        exact ⟨rfl, rfl⟩)

theorem attachmentReadFields_ok (isImport : Bool) (d : AttachmentData)
    (a : DeviceTransitGatewayAttachment) (v1 v2 v3 v4 : Int) (b : Bool)
    (h1 : Atoi a.TransitGatewayBgpAsn = .ok v1) (h2 : Atoi a.DeviceBgpAsn = .ok v2)
    (h3 : Atoi a.Phase1DHGroups = .ok v3) (h4 : Atoi a.Phase2DHGroups = .ok v4)
    (h5 : ParseBool a.EnableGlobalAccelerator = .ok b) :
    attachmentReadFields isImport d a =
      ({ id := a.ConnectionName
         device_name := a.DeviceName
         transit_gateway_name := a.TransitGatewayName
         connection_name := a.ConnectionName
         transit_gateway_bgp_asn := v1
         device_bgp_asn := v2
         phase1_authentication := a.Phase1Authentication
         phase1_dh_groups := v3
         phase1_encryption := a.Phase1Encryption
         phase2_authentication := a.Phase2Authentication
         phase2_dh_groups := v4
         phase2_encryption := a.Phase2Encryption
         enable_global_accelerator := b
         pre_shared_key := d.pre_shared_key
         local_tunnel_ip :=
           if isImport = true ∨ d.local_tunnel_ip ≠ "" then a.LocalTunnelIP
           else d.local_tunnel_ip
         remote_tunnel_ip :=
           if isImport = true ∨ d.remote_tunnel_ip ≠ "" then a.RemoteTunnelIP
           else d.remote_tunnel_ip }, none) := by
  unfold attachmentReadFields
  simp only [h1, h2, h3, h4, h5, AttachmentData.SetId]

theorem attachmentReadFields_err_iff (isImport : Bool) (d : AttachmentData)
    (a : DeviceTransitGatewayAttachment) :
    (attachmentReadFields isImport d a).2 ≠ none ↔
      ((Atoi a.TransitGatewayBgpAsn).isOk = false ∨ (Atoi a.DeviceBgpAsn).isOk = false ∨
        (Atoi a.Phase1DHGroups).isOk = false ∨ (Atoi a.Phase2DHGroups).isOk = false ∨
        (ParseBool a.EnableGlobalAccelerator).isOk = false) := by
  unfold attachmentReadFields
  rcases h1 : Atoi a.TransitGatewayBgpAsn with e1 | v1
  · simp [Except.isOk, Except.toBool]
  rcases h2 : Atoi a.DeviceBgpAsn with e2 | v2
  · simp [Except.isOk, Except.toBool]
  rcases h3 : Atoi a.Phase1DHGroups with e3 | v3
  · simp [Except.isOk, Except.toBool]
  rcases h4 : Atoi a.Phase2DHGroups with e4 | v4
  · simp [Except.isOk, Except.toBool]
  rcases h5 : ParseBool a.EnableGlobalAccelerator with e5 | v5
  · simp [Except.isOk, Except.toBool]
  simp [Except.isOk, Except.toBool]

theorem attachmentReadFields_err_id (isImport : Bool) (d : AttachmentData)
    (a : DeviceTransitGatewayAttachment)
    (h : (attachmentReadFields isImport d a).2 ≠ none) :
    (attachmentReadFields isImport d a).1.id = d.id := by
  unfold attachmentReadFields at h ⊢
  rcases h1 : Atoi a.TransitGatewayBgpAsn with e1 | v1
  · simp
  rcases h2 : Atoi a.DeviceBgpAsn with e2 | v2
  · simp
  rcases h3 : Atoi a.Phase1DHGroups with e3 | v3
  · simp
  rcases h4 : Atoi a.Phase2DHGroups with e4 | v4
  · simp
  rcases h5 : ParseBool a.EnableGlobalAccelerator with e5 | v5
  · simp
  simp [h1, h2, h3, h4, h5] at h

theorem firewallRead_error {σ : Type} (client : Client σ) (s : σ) (d : FirewallData)
    (e : GoError)
    (h : (client.GetFirewallInstance s
      { InstanceID := if d.instance_id = "" then d.id else d.instance_id }).2 = .error e) :
    (resourceAviatrixFirewallInstanceRead client s d).err
        = (if e = GoError.ErrNotFound then none
           else some (.wrap "couldn't find Firewall Instance" e)) ∧
      (resourceAviatrixFirewallInstanceRead client s d).d
        = (if e = GoError.ErrNotFound then
            (if d.instance_id = "" then { d with instance_id := d.id } else d).SetId ""
           else (if d.instance_id = "" then { d with instance_id := d.id } else d)) := by
  unfold resourceAviatrixFirewallInstanceRead
  by_cases hc : d.instance_id = "" <;> simp only [hc, decide_True, decide_False, if_true,
      if_false, FirewallData.SetId, Bool.false_eq_true] at h ⊢ <;>
    (split
     · next s1 err heq =>
        rw [heq] at h
        cases h
        by_cases he : e = GoError.ErrNotFound <;> simp [he]
     · next s1 a heq =>
        rw [heq] at h
        cases h)

theorem firewallRead_ok {σ : Type} (client : Client σ) (s : σ) (d : FirewallData)
    (fI : FirewallInstance)
    (h : (client.GetFirewallInstance s
      { InstanceID := if d.instance_id = "" then d.id else d.instance_id }).2 = .ok fI) :
    (resourceAviatrixFirewallInstanceRead client s d).err = none ∧
      (resourceAviatrixFirewallInstanceRead client s d).d
        = firewallReadFields (decide (d.instance_id = ""))
            (if d.instance_id = "" then { d with instance_id := d.id } else d) fI := by
  unfold resourceAviatrixFirewallInstanceRead
  by_cases hc : d.instance_id = "" <;> simp only [hc, decide_True, decide_False, if_true,
      if_false, FirewallData.SetId, Bool.false_eq_true] at h ⊢ <;>
    (split
     · next s1 err heq =>
        rw [heq] at h
        cases h
     · next s1 a1 heq =>
        rw [heq] at h
        cases h
        exact ⟨rfl, rfl⟩)

theorem firewallRead_calls {σ : Type} (client : Client σ) (s : σ) (d : FirewallData) :
    (resourceAviatrixFirewallInstanceRead client s d).calls
      = [Call.GetFirewallInstance
          { InstanceID := if d.instance_id = "" then d.id else d.instance_id }] := by
  unfold resourceAviatrixFirewallInstanceRead
  by_cases hc : d.instance_id = "" <;> simp only [hc, decide_True, decide_False, if_true,
      if_false, FirewallData.SetId, Bool.false_eq_true] <;>
    (split
     · split <;> rfl
     · rfl)

theorem attachmentRead_calls {σ : Type} (client : Client σ) (s : σ) (d : AttachmentData) :
    (resourceAviatrixDeviceTransitGatewayAttachmentRead client s d).calls
      = [Call.GetDeviceTransitGatewayAttachment
          { ConnectionName := if d.connection_name = "" then d.id else d.connection_name }] := by
  unfold resourceAviatrixDeviceTransitGatewayAttachmentRead
  by_cases hc : d.connection_name = "" <;> simp only [hc, decide_True, decide_False, if_true,
      if_false, AttachmentData.SetId_id, Bool.false_eq_true] <;>
    (split
     · split <;> rfl
     · rfl)

theorem attachmentCreate_ok {σ : Type} (client : Client σ) (s : σ) (d : AttachmentData)
    (h : (client.CreateDeviceTransitGatewayAttachment s
      (marshalDeviceTransitGatewayAttachmentInput d)).2 = none) :
    resourceAviatrixDeviceTransitGatewayAttachmentCreate client s d =
      ⟨(client.CreateDeviceTransitGatewayAttachment s
          (marshalDeviceTransitGatewayAttachmentInput d)).1,
        { d with id := d.connection_name }, none,
        [Call.CreateDeviceTransitGatewayAttachment
          (marshalDeviceTransitGatewayAttachmentInput d)]⟩ := by
  unfold resourceAviatrixDeviceTransitGatewayAttachmentCreate
  simp only
  split
  · next s1 err heq =>
    rw [heq] at h
    cases h
  · next s1 heq =>
    rw [heq]
    rfl

theorem attachmentCreate_error {σ : Type} (client : Client σ) (s : σ) (d : AttachmentData)
    (e : GoError)
    (h : (client.CreateDeviceTransitGatewayAttachment s
      (marshalDeviceTransitGatewayAttachmentInput d)).2 = some e) :
    resourceAviatrixDeviceTransitGatewayAttachmentCreate client s d =
      ⟨(client.CreateDeviceTransitGatewayAttachment s
          (marshalDeviceTransitGatewayAttachmentInput d)).1,
        d, some (.wrap "could not create transit gateway and device attachment" e),
        [Call.CreateDeviceTransitGatewayAttachment
          (marshalDeviceTransitGatewayAttachmentInput d)]⟩ := by
  unfold resourceAviatrixDeviceTransitGatewayAttachmentCreate
  simp only
  split
  · next s1 err heq =>
    rw [heq] at h
    cases h
    rw [heq]
  · next s1 heq =>
    rw [heq] at h
    cases h

theorem firewallCreate_request_eq (d : FirewallData) :
    (if d.zone ≠ "" then
        ({ VpcID := d.vpc_id, GwName := d.firenet_gw_name, FirewallName := d.firewall_name,
           FirewallImage := d.firewall_image,
           FirewallImageVersion := d.firewall_image_version,
           FirewallSize := d.firewall_size,
           EgressSubnet := d.egress_subnet ++ "~~" ++ d.zone ++ "~~",
           ManagementSubnet := d.management_subnet ++ "~~" ++ d.zone ++ "~~",
           KeyName := d.key_name, IamRole := d.iam_role,
           BootstrapBucketName := d.bootstrap_bucket_name, Username := d.username,
           Password := d.password } : FirewallInstance)
        else
        { VpcID := d.vpc_id, GwName := d.firenet_gw_name, FirewallName := d.firewall_name,
           FirewallImage := d.firewall_image,
           FirewallImageVersion := d.firewall_image_version,
           FirewallSize := d.firewall_size, EgressSubnet := d.egress_subnet,
           ManagementSubnet := d.management_subnet, KeyName := d.key_name,
           IamRole := d.iam_role, BootstrapBucketName := d.bootstrap_bucket_name,
           Username := d.username, Password := d.password }) = firewallInstanceRequest d := by
  unfold firewallInstanceRequest
  by_cases hz : d.zone = "" <;> simp [hz]

theorem firewallCreate_vpc_error {σ : Type} (client : Client σ) (s : σ) (d : FirewallData)
    (e : GoError) (h : (client.GetVpcCloudTypeById s d.vpc_id).2 = .error e) :
    (resourceAviatrixFirewallInstanceCreate client s d).err ≠ none ∧
    (resourceAviatrixFirewallInstanceCreate client s d).d = d ∧
    (resourceAviatrixFirewallInstanceCreate client s d).calls
      = [Call.GetVpcCloudTypeById d.vpc_id] := by
  unfold resourceAviatrixFirewallInstanceCreate
  simp only
  split
  · next s1 err heq =>
    by_cases he : err = GoError.ErrNotFound <;> simp [he]
  · next s1 ct heq =>
    rw [heq] at h
    cases h

theorem firewallCreate_zone_invalid {σ : Type} (client : Client σ) (s : σ) (d : FirewallData)
    (cloudType : Int) (h : (client.GetVpcCloudTypeById s d.vpc_id).2 = .ok cloudType)
    (hz : d.zone ≠ "") (hc : cloudType ≠ client.AZURE) :
    (resourceAviatrixFirewallInstanceCreate client s d).err
      = some (.errorf "'zone' attribute is only valid for AZURE") ∧
    (resourceAviatrixFirewallInstanceCreate client s d).d = d ∧
    (resourceAviatrixFirewallInstanceCreate client s d).calls
      = [Call.GetVpcCloudTypeById d.vpc_id] := by
  unfold resourceAviatrixFirewallInstanceCreate
  simp only
  split
  · next s1 err heq =>
    rw [heq] at h
    cases h
  · next s1 ct heq =>
    rw [heq] at h
    cases h
    rw [if_pos ⟨hz, hc⟩]
    exact ⟨rfl, rfl, rfl⟩

theorem firewallCreate_create_error {σ : Type} (client : Client σ) (s : σ) (d : FirewallData)
    (cloudType : Int) (e : GoError)
    (h : (client.GetVpcCloudTypeById s d.vpc_id).2 = .ok cloudType)
    (hv : ¬ (d.zone ≠ "" ∧ cloudType ≠ client.AZURE))
    (hcr : (client.CreateFirewallInstance (client.GetVpcCloudTypeById s d.vpc_id).1
      (firewallInstanceRequest d)).2 = .error e) :
    (resourceAviatrixFirewallInstanceCreate client s d).err ≠ none ∧
    (resourceAviatrixFirewallInstanceCreate client s d).d = d ∧
    (resourceAviatrixFirewallInstanceCreate client s d).calls
      = [Call.GetVpcCloudTypeById d.vpc_id,
          Call.CreateFirewallInstance (firewallInstanceRequest d)] := by
  unfold resourceAviatrixFirewallInstanceCreate
  simp only
  split
  · next s1 err heq =>
    rw [heq] at h
    cases h
  · next s1 ct heq =>
    rw [heq] at h hcr
    cases h
    rw [if_neg hv]
    rw [firewallCreate_request_eq]
    split
    · next s2 err heq2 =>
      by_cases he : err = GoError.ErrNotFound <;> simp [he]
    · next s2 iid heq2 =>
      rw [heq2] at hcr
      cases hcr

theorem firewallCreate_created {σ : Type} (client : Client σ) (s : σ) (d : FirewallData)
    (cloudType : Int) (instanceID : String)
    (h : (client.GetVpcCloudTypeById s d.vpc_id).2 = .ok cloudType)
    (hv : ¬ (d.zone ≠ "" ∧ cloudType ≠ client.AZURE))
    (hcr : (client.CreateFirewallInstance (client.GetVpcCloudTypeById s d.vpc_id).1
      (firewallInstanceRequest d)).2 = .ok instanceID) :
    (resourceAviatrixFirewallInstanceCreate client s d).err
      = (resourceAviatrixFirewallInstanceRead client
          (client.CreateFirewallInstance (client.GetVpcCloudTypeById s d.vpc_id).1
            (firewallInstanceRequest d)).1 (d.SetId instanceID)).err ∧
    (resourceAviatrixFirewallInstanceCreate client s d).d
      = (resourceAviatrixFirewallInstanceRead client
          (client.CreateFirewallInstance (client.GetVpcCloudTypeById s d.vpc_id).1
            (firewallInstanceRequest d)).1 (d.SetId instanceID)).d ∧
    (resourceAviatrixFirewallInstanceCreate client s d).calls
      = [Call.GetVpcCloudTypeById d.vpc_id,
          Call.CreateFirewallInstance (firewallInstanceRequest d)] ++
        (resourceAviatrixFirewallInstanceRead client
          (client.CreateFirewallInstance (client.GetVpcCloudTypeById s d.vpc_id).1
            (firewallInstanceRequest d)).1 (d.SetId instanceID)).calls := by
  unfold resourceAviatrixFirewallInstanceCreate
  simp only
  split
  · next s1 err heq =>
    rw [heq] at h
    cases h
  · next s1 ct heq =>
    rw [heq] at h hcr ⊢
    cases h
    rw [if_neg hv, firewallCreate_request_eq]
    dsimp only at hcr ⊢
    split
    · next s2 err heq2 =>
      rw [heq2] at hcr
      cases hcr
    · next s2 iid heq2 =>
      rw [heq2] at hcr ⊢
      cases hcr
      exact ⟨rfl, rfl, rfl⟩

theorem firewallReadFields_id (isImport : Bool) (d : FirewallData) (fI : FirewallInstance) :
    (firewallReadFields isImport d fI).id = d.id := by
  rfl

theorem firewallReadFields_instance_id (isImport : Bool) (d : FirewallData)
    (fI : FirewallInstance) :
    (firewallReadFields isImport d fI).instance_id = fI.InstanceID := by
  rfl

theorem firewallReadFields_vpc_id (isImport : Bool) (d : FirewallData)
    (fI : FirewallInstance) :
    (firewallReadFields isImport d fI).vpc_id = fI.VpcID := by
  rfl

/-- Read of an imported record: every field with a counterpart in the remote
object takes the counterpart, except `key_name`, which stays empty. -/
theorem firewall_import_read_fields {σ : Type} (client : Client σ) (s : σ) (id : String)
    (fI : FirewallInstance)
    (h : (client.GetFirewallInstance s { InstanceID := id }).2 = .ok fI) :
    (resourceAviatrixFirewallInstanceRead client s (FirewallData.imported id)).err = none ∧
    (resourceAviatrixFirewallInstanceRead client s (FirewallData.imported id)).d =
      { id := id
        vpc_id := fI.VpcID
        firenet_gw_name := fI.GwName
        firewall_name := fI.FirewallName
        firewall_image := fI.FirewallImage
        firewall_size := fI.FirewallSize
        egress_subnet := fI.EgressSubnet
        management_subnet := fI.ManagementSubnet
        firewall_image_version := fI.FirewallImageVersion
        key_name := ""
        iam_role := fI.IamRole
        bootstrap_bucket_name := fI.BootstrapBucketName
        username := fI.Username
        password := ""
        zone := if fI.AvailabilityZone ≠ "AvailabilitySet" ∧ fI.AvailabilityZone ≠ "" ∧
            fI.CloudVendor = "Azure ARM" then "az-" ++ fI.AvailabilityZone else ""
        instance_id := fI.InstanceID
        lan_interface := fI.LanInterface
        management_interface := fI.ManagementInterface
        egress_interface := fI.EgressInterface
        public_ip := fI.ManagementPublicIP } := by
  obtain ⟨h1, h2⟩ := firewallRead_ok client s (FirewallData.imported id) fI h
  rw [h1, h2]
  refine ⟨rfl, ?_⟩
  simp only [firewallReadFields, FirewallData.imported, decide_True, if_true, ne_eq,
    not_true_eq_false, false_or, true_and, not_false_eq_true]
  by_cases hv : fI.FirewallImageVersion = "" <;> by_cases hr : fI.IamRole = "" <;>
    by_cases hb : fI.BootstrapBucketName = "" <;> by_cases hu : fI.Username = "" <;>
    simp [hv, hr, hb, hu]

theorem firewallCreate_success {σ : Type} (client : Client σ) (s : σ) (d : FirewallData)
    (h : (resourceAviatrixFirewallInstanceCreate client s d).err = none) :
    ∃ cloudType instanceID,
      (client.GetVpcCloudTypeById s d.vpc_id).2 = .ok cloudType ∧
      (client.CreateFirewallInstance (client.GetVpcCloudTypeById s d.vpc_id).1
        (firewallInstanceRequest d)).2 = .ok instanceID ∧
      (((∃ fI, (client.GetFirewallInstance
          (client.CreateFirewallInstance (client.GetVpcCloudTypeById s d.vpc_id).1
            (firewallInstanceRequest d)).1
          { InstanceID := if d.instance_id = "" then instanceID else d.instance_id }).2
            = .ok fI) ∧
        (resourceAviatrixFirewallInstanceCreate client s d).d.id = instanceID) ∨
       ((client.GetFirewallInstance
          (client.CreateFirewallInstance (client.GetVpcCloudTypeById s d.vpc_id).1
            (firewallInstanceRequest d)).1
          { InstanceID := if d.instance_id = "" then instanceID else d.instance_id }).2
            = .error GoError.ErrNotFound ∧
        (resourceAviatrixFirewallInstanceCreate client s d).d.id = "")) := by
  rcases hvpc : (client.GetVpcCloudTypeById s d.vpc_id).2 with e | cloudType
  · exact absurd h (firewallCreate_vpc_error client s d e hvpc).1
  by_cases hv : d.zone ≠ "" ∧ cloudType ≠ client.AZURE
  · have h1 := (firewallCreate_zone_invalid client s d cloudType hvpc hv.1 hv.2).1
    rw [h1] at h
    cases h
  rcases hcr : (client.CreateFirewallInstance (client.GetVpcCloudTypeById s d.vpc_id).1
      (firewallInstanceRequest d)).2 with e | instanceID
  · exact absurd h (firewallCreate_create_error client s d cloudType e hvpc hv hcr).1
  refine ⟨cloudType, instanceID, rfl, rfl, ?_⟩
  obtain ⟨h1, h2, _⟩ := firewallCreate_created client s d cloudType instanceID hvpc hv hcr
  rcases hget : (client.GetFirewallInstance
      (client.CreateFirewallInstance (client.GetVpcCloudTypeById s d.vpc_id).1
        (firewallInstanceRequest d)).1
      { InstanceID := if d.instance_id = "" then instanceID else d.instance_id }).2
    with e | fI
  · obtain ⟨h3, h4⟩ := firewallRead_error client _ (d.SetId instanceID) e hget
    by_cases hne : e = GoError.ErrNotFound
    · subst hne
      right
      refine ⟨rfl, ?_⟩
      rw [h2, h4]
      rfl
    · rw [h1, h3, if_neg hne] at h
      cases h
  · obtain ⟨h3, h4⟩ := firewallRead_ok client _ (d.SetId instanceID) fI hget
    left
    refine ⟨⟨fI, rfl⟩, ?_⟩
    rw [h2, h4, firewallReadFields_id]
    by_cases hi : d.instance_id = "" <;> simp [hi, FirewallData.SetId]

theorem attachmentReadFields_none_key (isImport : Bool) (d : AttachmentData)
    (a : DeviceTransitGatewayAttachment)
    (h : (attachmentReadFields isImport d a).2 = none) :
    (attachmentReadFields isImport d a).1.connection_name
      = (attachmentReadFields isImport d a).1.id := by
  unfold attachmentReadFields at h ⊢
  rcases h1 : Atoi a.TransitGatewayBgpAsn with e1 | v1
  · simp [h1] at h
  rcases h2 : Atoi a.DeviceBgpAsn with e2 | v2
  · simp [h1, h2] at h
  rcases h3 : Atoi a.Phase1DHGroups with e3 | v3
  · simp [h1, h2, h3] at h
  rcases h4 : Atoi a.Phase2DHGroups with e4 | v4
  · simp [h1, h2, h3, h4] at h
  rcases h5 : ParseBool a.EnableGlobalAccelerator with e5 | v5
  · simp [h1, h2, h3, h4, h5] at h
  simp [AttachmentData.SetId]

theorem attachmentDelete_calls {σ : Type} (client : Client σ) (s : σ) (d : AttachmentData) :
    (resourceAviatrixDeviceTransitGatewayAttachmentDelete client s d).calls = [Call.DeleteDeviceAttachment d.connection_name] := by
  unfold resourceAviatrixDeviceTransitGatewayAttachmentDelete
  simp only
  split <;> rfl

theorem firewallDelete_calls {σ : Type} (client : Client σ) (s : σ) (d : FirewallData) :
    (resourceAviatrixFirewallInstanceDelete client s d).calls
      = [Call.DeleteFirewallInstance { VpcID := d.vpc_id, InstanceID := d.instance_id }] := by
  unfold resourceAviatrixFirewallInstanceDelete
  simp only
  split <;> rfl

/-- In a reachable state of the attachment record, `connection_name` is the ID,
unless the state is an import that no Read has refreshed yet. -/
theorem attachment_reachable_key {σ : Type} (client : Client σ) (d : AttachmentData)
    (h : AttachmentReachable client d) :
    d = AttachmentData.imported d.id ∨ d.connection_name = d.id := by
  cases h with
  | imported id => exact Or.inl rfl
  | created s d0 herr hid =>
    right
    rcases hc : (client.CreateDeviceTransitGatewayAttachment s
        (marshalDeviceTransitGatewayAttachmentInput d0)).2 with _ | e
    · rw [attachmentCreate_ok client s d0 hc]
    · rw [attachmentCreate_error client s d0 e hc] at herr
      cases herr
  | refreshed s d0 _ herr hid =>
    right
    rcases hg : (client.GetDeviceTransitGatewayAttachment s
        { ConnectionName := if d0.connection_name = "" then d0.id else d0.connection_name }).2
      with e | a
    · obtain ⟨h1, h2⟩ := attachmentRead_error client s d0 e hg
      by_cases he : e = GoError.ErrNotFound
      · rw [h2, if_pos he] at hid
        exact absurd rfl hid
      · rw [h1, if_neg he] at herr
        cases herr
    · obtain ⟨h1, h2⟩ := attachmentRead_ok client s d0 a hg
      rw [h1] at herr
      rw [h2]
      exact attachmentReadFields_none_key _ d0 a herr

/-- In a reachable state of the firewall record, against a key-faithful client,
`instance_id` is the ID, unless the state is an import that no Read has
refreshed yet. -/
theorem firewall_reachable_key {σ : Type} (client : Client σ) (hk : KeyFaithful client)
    (d : FirewallData) (h : FirewallReachable client d) :
    d = FirewallData.imported d.id ∨ d.instance_id = d.id := by
  induction h with
  | imported id => exact Or.inl rfl
  | created s d0 hinst herr hid =>
    right
    obtain ⟨cloudType, instanceID, hvpc, hcr, hcases⟩ := firewallCreate_success client s d0 herr
    rcases hcases with ⟨⟨fI, hget⟩, hidEq⟩ | ⟨_, hempty⟩
    · have hv : ¬ (d0.zone ≠ "" ∧ cloudType ≠ client.AZURE) := by
        intro hv
        have h1 := (firewallCreate_zone_invalid client s d0 cloudType hvpc hv.1 hv.2).1
        rw [h1] at herr
        cases herr
      obtain ⟨_, h2, _⟩ := firewallCreate_created client s d0 cloudType instanceID hvpc hv hcr
      obtain ⟨_, h4⟩ := firewallRead_ok client _ (d0.SetId instanceID) fI hget
      have hfaith := hk _ _ _ hget
      rw [hidEq, h2, h4, firewallReadFields_instance_id, hfaith]
      simp [hinst]
    · exact absurd hempty hid
  | refreshed s d0 _ herr hid ih =>
    right
    have hkey : (if d0.instance_id = "" then d0.id else d0.instance_id) = d0.id := by
      rcases ih with h | h
      · rw [h]
        rfl
      · by_cases hi : d0.instance_id = ""
        · rw [if_pos hi]
        · rw [if_neg hi, h]
    rcases hg : (client.GetFirewallInstance s
        { InstanceID := if d0.instance_id = "" then d0.id else d0.instance_id }).2 with e | fI
    · obtain ⟨h1, h2⟩ := firewallRead_error client s d0 e hg
      by_cases he : e = GoError.ErrNotFound
      · rw [h2, if_pos he] at hid
        exact absurd rfl hid
      · rw [h1, if_neg he] at herr
        cases herr
    · obtain ⟨_, h2⟩ := firewallRead_ok client s d0 fI hg
      have hfaith := hk _ _ _ hg
      rw [h2, firewallReadFields_instance_id, firewallReadFields_id, hfaith]
      by_cases hi : d0.instance_id = "" <;> simp [hi] at hkey ⊢
      exact hkey

theorem memClient_keyFaithful (cloudType : Int) (newID : String) :
    KeyFaithful (memClient cloudType newID) := by
  intro s q fI h
  simp only [memClient] at h
  split at h
  · next f hf =>
    simp only [Except.ok.injEq] at h
    subst h
    have := List.find?_some hf
    simpa using this
  · cases h

/-! ## The claims -/

/-- C1: against a client that accepts the attachment passed to
`CreateDeviceTransitGatewayAttachment` and returns it unchanged from
`GetDeviceTransitGatewayAttachment`, Create followed by Read both succeed for
every configuration whose integer fields are Go ints, and leave every field
equal to its input value, with the ID equal to `connection_name`. -/
theorem attachment_create_read_roundtrip {σ : Type} (client : Client σ) (s : σ)
    (d : AttachmentData)
    (hi1 : isGoInt d.transit_gateway_bgp_asn) (hi2 : isGoInt d.device_bgp_asn)
    (hi3 : isGoInt d.phase1_dh_groups) (hi4 : isGoInt d.phase2_dh_groups)
    (hcreate : (client.CreateDeviceTransitGatewayAttachment s
      (marshalDeviceTransitGatewayAttachmentInput d)).2 = none)
    (hget : (client.GetDeviceTransitGatewayAttachment
      (client.CreateDeviceTransitGatewayAttachment s
        (marshalDeviceTransitGatewayAttachmentInput d)).1
      { ConnectionName := d.connection_name }).2
        = .ok (marshalDeviceTransitGatewayAttachmentInput d)) :
    (resourceAviatrixDeviceTransitGatewayAttachmentCreate client s d).err = none ∧
    (resourceAviatrixDeviceTransitGatewayAttachmentRead client
      (resourceAviatrixDeviceTransitGatewayAttachmentCreate client s d).remote
      (resourceAviatrixDeviceTransitGatewayAttachmentCreate client s d).d).err = none ∧
    (resourceAviatrixDeviceTransitGatewayAttachmentRead client
      (resourceAviatrixDeviceTransitGatewayAttachmentCreate client s d).remote
      (resourceAviatrixDeviceTransitGatewayAttachmentCreate client s d).d).d
        = { d with id := d.connection_name } := by
  rw [attachmentCreate_ok client s d hcreate]
  simp only [true_and]
  have hreq : (if ({ d with id := d.connection_name } : AttachmentData).connection_name = ""
      then ({ d with id := d.connection_name } : AttachmentData).id
      else ({ d with id := d.connection_name } : AttachmentData).connection_name)
        = d.connection_name := by simp
  have hget2 := hget
  rw [← hreq] at hget2
  obtain ⟨he, hd⟩ := attachmentRead_ok client _ _ _ hget2
  have hf := attachmentReadFields_ok
    (decide (({ d with id := d.connection_name } : AttachmentData).connection_name = ""))
    { d with id := d.connection_name } (marshalDeviceTransitGatewayAttachmentInput d)
    _ _ _ _ _ (Atoi_Itoa _ hi1) (Atoi_Itoa _ hi2) (Atoi_Itoa _ hi3) (Atoi_Itoa _ hi4)
    (ParseBool_FormatBool _)
  rw [he, hd, hf]
  refine ⟨rfl, ?_⟩
  simp only [marshalDeviceTransitGatewayAttachmentInput]
  by_cases hl : d.local_tunnel_ip = "" <;> by_cases hr : d.remote_tunnel_ip = "" <;>
    simp [hl, hr]

theorem attachment_create_read_roundtrip_witness :
    (resourceAviatrixDeviceTransitGatewayAttachmentCreate (memClient 1 "i-1") {} conn1).err
      = none ∧
    (resourceAviatrixDeviceTransitGatewayAttachmentRead (memClient 1 "i-1")
      (resourceAviatrixDeviceTransitGatewayAttachmentCreate (memClient 1 "i-1") {} conn1).remote
      (resourceAviatrixDeviceTransitGatewayAttachmentCreate (memClient 1 "i-1") {} conn1).d).err
      = none ∧
    (resourceAviatrixDeviceTransitGatewayAttachmentRead (memClient 1 "i-1")
      (resourceAviatrixDeviceTransitGatewayAttachmentCreate (memClient 1 "i-1") {} conn1).remote
      (resourceAviatrixDeviceTransitGatewayAttachmentCreate (memClient 1 "i-1") {} conn1).d).d
        = { conn1 with id := conn1.connection_name } :=
  attachment_create_read_roundtrip (memClient 1 "i-1") {} conn1
    (by decide) (by decide) (by decide) (by decide) rfl (by decide)

/-- C2: for both adapters and every record state, when the lookup Read makes
(`GetDeviceTransitGatewayAttachment`, `GetFirewallInstance`) reports
`goaviatrix.ErrNotFound`, Read returns no error and sets the ID to the empty
string. -/
theorem read_notFound_absent {σ : Type} (client : Client σ) (s : σ) (da : AttachmentData)
    (df : FirewallData) :
    ((client.GetDeviceTransitGatewayAttachment s
        { ConnectionName := if da.connection_name = "" then da.id else da.connection_name }).2
          = .error GoError.ErrNotFound →
      (resourceAviatrixDeviceTransitGatewayAttachmentRead client s da).err = none ∧ (resourceAviatrixDeviceTransitGatewayAttachmentRead client s da).d.id = "") ∧
    ((client.GetFirewallInstance s
        { InstanceID := if df.instance_id = "" then df.id else df.instance_id }).2
          = .error GoError.ErrNotFound →
      (resourceAviatrixFirewallInstanceRead client s df).err = none ∧ (resourceAviatrixFirewallInstanceRead client s df).d.id = "") := by
  constructor
  · intro h
    obtain ⟨he, hd⟩ := attachmentRead_error client s da _ h
    rw [he, hd]
    exact ⟨rfl, rfl⟩
  · intro h
    obtain ⟨he, hd⟩ := firewallRead_error client s df _ h
    rw [he, hd]
    exact ⟨rfl, rfl⟩

theorem read_notFound_absent_witness :
    ((resourceAviatrixDeviceTransitGatewayAttachmentRead (fixedClient none (.error .ErrNotFound) (.ok 1) (.ok "i-1") (.error .ErrNotFound)) ()
        { conn1 with id := "conn1" }).err = none ∧
      (resourceAviatrixDeviceTransitGatewayAttachmentRead (fixedClient none (.error .ErrNotFound) (.ok 1) (.ok "i-1") (.error .ErrNotFound)) ()
        { conn1 with id := "conn1" }).d.id = "") ∧
    ((resourceAviatrixFirewallInstanceRead (fixedClient none (.error .ErrNotFound) (.ok 1) (.ok "i-1") (.error .ErrNotFound)) ()
        { fw1 with id := "i-1", instance_id := "i-1" }).err = none ∧
      (resourceAviatrixFirewallInstanceRead (fixedClient none (.error .ErrNotFound) (.ok 1) (.ok "i-1") (.error .ErrNotFound)) ()
        { fw1 with id := "i-1", instance_id := "i-1" }).d.id = "") :=
  ⟨(read_notFound_absent
      (fixedClient none (.error .ErrNotFound) (.ok 1) (.ok "i-1") (.error .ErrNotFound)) ()
      { conn1 with id := "conn1" } { fw1 with id := "i-1", instance_id := "i-1" }).1 rfl,
   (read_notFound_absent
      (fixedClient none (.error .ErrNotFound) (.ok 1) (.ok "i-1") (.error .ErrNotFound)) ()
      { conn1 with id := "conn1" } { fw1 with id := "i-1", instance_id := "i-1" }).2 rfl⟩

/-- C4: tunnel-IP merge policy of the attachment Read.  For every record state
and every remote attachment returned by the lookup whose numeric and boolean
texts parse: when `connection_name` was empty before the call (an import) both
tunnel IPs take the remote values; otherwise each of the two fields takes the
remote value when its own prior value was non-empty and stays empty when it was
empty, whatever the other field held. -/
theorem tunnel_ip_merge_policy {σ : Type} (client : Client σ) (s : σ) (d : AttachmentData)
    (a : DeviceTransitGatewayAttachment) (v1 v2 v3 v4 : Int) (b : Bool)
    (hget : (client.GetDeviceTransitGatewayAttachment s
      { ConnectionName := if d.connection_name = "" then d.id else d.connection_name }).2
        = .ok a)
    (h1 : Atoi a.TransitGatewayBgpAsn = .ok v1) (h2 : Atoi a.DeviceBgpAsn = .ok v2)
    (h3 : Atoi a.Phase1DHGroups = .ok v3) (h4 : Atoi a.Phase2DHGroups = .ok v4)
    (h5 : ParseBool a.EnableGlobalAccelerator = .ok b) :
    (resourceAviatrixDeviceTransitGatewayAttachmentRead client s d).err = none ∧
    (d.connection_name = "" →
      (resourceAviatrixDeviceTransitGatewayAttachmentRead client s d).d.local_tunnel_ip = a.LocalTunnelIP ∧
      (resourceAviatrixDeviceTransitGatewayAttachmentRead client s d).d.remote_tunnel_ip = a.RemoteTunnelIP) ∧
    (d.connection_name ≠ "" →
      (d.local_tunnel_ip ≠ "" → (resourceAviatrixDeviceTransitGatewayAttachmentRead client s d).d.local_tunnel_ip = a.LocalTunnelIP) ∧
      (d.local_tunnel_ip = "" → (resourceAviatrixDeviceTransitGatewayAttachmentRead client s d).d.local_tunnel_ip = "") ∧
      (d.remote_tunnel_ip ≠ "" → (resourceAviatrixDeviceTransitGatewayAttachmentRead client s d).d.remote_tunnel_ip = a.RemoteTunnelIP) ∧
      (d.remote_tunnel_ip = "" → (resourceAviatrixDeviceTransitGatewayAttachmentRead client s d).d.remote_tunnel_ip = "")) := by
  obtain ⟨he, hd⟩ := attachmentRead_ok client s d a hget
  rw [he, hd, attachmentReadFields_ok _ d a v1 v2 v3 v4 b h1 h2 h3 h4 h5]
  refine ⟨rfl, ?_, ?_⟩
  · intro hc
    simp [hc]
  · intro hc
    refine ⟨?_, ?_, ?_, ?_⟩ <;> intro hx <;> simp [hc, hx]

theorem tunnel_ip_merge_policy_witness :
    (resourceAviatrixDeviceTransitGatewayAttachmentRead (fixedClient none
        (.ok { marshalDeviceTransitGatewayAttachmentInput conn1 with
                LocalTunnelIP := "169.254.0.1", RemoteTunnelIP := "169.254.0.2" })
        (.ok 1) (.ok "i-1") (.error .ErrNotFound)) ()
        { conn1 with id := "conn1", remote_tunnel_ip := "10.9.9.9" }).err = none ∧
    (resourceAviatrixDeviceTransitGatewayAttachmentRead (fixedClient none
        (.ok { marshalDeviceTransitGatewayAttachmentInput conn1 with
                LocalTunnelIP := "169.254.0.1", RemoteTunnelIP := "169.254.0.2" })
        (.ok 1) (.ok "i-1") (.error .ErrNotFound)) ()
        { conn1 with id := "conn1", remote_tunnel_ip := "10.9.9.9" }).d.local_tunnel_ip = "" ∧
    (resourceAviatrixDeviceTransitGatewayAttachmentRead (fixedClient none
        (.ok { marshalDeviceTransitGatewayAttachmentInput conn1 with
                LocalTunnelIP := "169.254.0.1", RemoteTunnelIP := "169.254.0.2" })
        (.ok 1) (.ok "i-1") (.error .ErrNotFound)) ()
        { conn1 with id := "conn1", remote_tunnel_ip := "10.9.9.9" }).d.remote_tunnel_ip
          = "169.254.0.2" :=
  have h := tunnel_ip_merge_policy (fixedClient none
        (.ok { marshalDeviceTransitGatewayAttachmentInput conn1 with
                LocalTunnelIP := "169.254.0.1", RemoteTunnelIP := "169.254.0.2" })
        (.ok 1) (.ok "i-1") (.error .ErrNotFound)) ()
        { conn1 with id := "conn1", remote_tunnel_ip := "10.9.9.9" }
        { marshalDeviceTransitGatewayAttachmentInput conn1 with
                LocalTunnelIP := "169.254.0.1", RemoteTunnelIP := "169.254.0.2" }
        65000 65001 14 14 false rfl (by decide) (by decide) (by decide) (by decide) (by decide)
  ⟨h.1, (h.2.2 (by decide)).2.1 (by decide), (h.2.2 (by decide)).2.2.1 (by decide)⟩

/-- C5: typed conversion in the attachment Read.  When the lookup succeeds, Read
returns an error exactly when one of the texts `TransitGatewayBgpAsn`,
`DeviceBgpAsn`, `Phase1DHGroups`, `Phase2DHGroups` fails to parse as an integer
or `EnableGlobalAccelerator` fails to parse as a boolean; when all parse, the
five typed fields hold the parsed values; and an error return leaves the ID as
it was, unlike the NotFound outcome, which clears it. -/
theorem attachment_read_conversion {σ : Type} (client : Client σ) (s : σ)
    (d : AttachmentData) (a : DeviceTransitGatewayAttachment)
    (hget : (client.GetDeviceTransitGatewayAttachment s
      { ConnectionName := if d.connection_name = "" then d.id else d.connection_name }).2
        = .ok a) :
    ((resourceAviatrixDeviceTransitGatewayAttachmentRead client s d).err ≠ none ↔
      ((Atoi a.TransitGatewayBgpAsn).isOk = false ∨ (Atoi a.DeviceBgpAsn).isOk = false ∨
        (Atoi a.Phase1DHGroups).isOk = false ∨ (Atoi a.Phase2DHGroups).isOk = false ∨
        (ParseBool a.EnableGlobalAccelerator).isOk = false)) ∧
    (∀ (v1 v2 v3 v4 : Int) (b : Bool),
      Atoi a.TransitGatewayBgpAsn = .ok v1 → Atoi a.DeviceBgpAsn = .ok v2 →
      Atoi a.Phase1DHGroups = .ok v3 → Atoi a.Phase2DHGroups = .ok v4 →
      ParseBool a.EnableGlobalAccelerator = .ok b →
      (resourceAviatrixDeviceTransitGatewayAttachmentRead client s d).d.transit_gateway_bgp_asn = v1 ∧ (resourceAviatrixDeviceTransitGatewayAttachmentRead client s d).d.device_bgp_asn = v2 ∧
      (resourceAviatrixDeviceTransitGatewayAttachmentRead client s d).d.phase1_dh_groups = v3 ∧ (resourceAviatrixDeviceTransitGatewayAttachmentRead client s d).d.phase2_dh_groups = v4 ∧
      (resourceAviatrixDeviceTransitGatewayAttachmentRead client s d).d.enable_global_accelerator = b) ∧
    ((resourceAviatrixDeviceTransitGatewayAttachmentRead client s d).err ≠ none → (resourceAviatrixDeviceTransitGatewayAttachmentRead client s d).d.id = d.id) := by
  obtain ⟨he, hd⟩ := attachmentRead_ok client s d a hget
  rw [he, hd]
  refine ⟨attachmentReadFields_err_iff _ d a, ?_, attachmentReadFields_err_id _ d a⟩
  intro v1 v2 v3 v4 b h1 h2 h3 h4 h5
  rw [attachmentReadFields_ok _ d a v1 v2 v3 v4 b h1 h2 h3 h4 h5]
  exact ⟨rfl, rfl, rfl, rfl, rfl⟩

theorem attachment_read_conversion_witness :
    (resourceAviatrixDeviceTransitGatewayAttachmentRead (fixedClient none
        (.ok { marshalDeviceTransitGatewayAttachmentInput conn1 with DeviceBgpAsn := "abc" })
        (.ok 1) (.ok "i-1") (.error .ErrNotFound)) () { conn1 with id := "conn1" }).err ≠ none ∧
    (resourceAviatrixDeviceTransitGatewayAttachmentRead (fixedClient none
        (.ok { marshalDeviceTransitGatewayAttachmentInput conn1 with DeviceBgpAsn := "abc" })
        (.ok 1) (.ok "i-1") (.error .ErrNotFound)) () { conn1 with id := "conn1" }).d.id
          = "conn1" ∧
    (Atoi "abc").isOk = false ∧ Atoi "14" = .ok 14 ∧ ParseBool "true" = .ok true :=
  have h := attachment_read_conversion (fixedClient none
        (.ok { marshalDeviceTransitGatewayAttachmentInput conn1 with DeviceBgpAsn := "abc" })
        (.ok 1) (.ok "i-1") (.error .ErrNotFound)) () { conn1 with id := "conn1" }
        { marshalDeviceTransitGatewayAttachmentInput conn1 with DeviceBgpAsn := "abc" } rfl
  ⟨h.1.2 (Or.inr (Or.inl (by decide))), h.2.2 (h.1.2 (Or.inr (Or.inl (by decide)))),
    by decide, by decide, by decide⟩

/-- C3 (as amended): for every firewall-instance configuration whose zone is
non-empty and whose VPC is reported with a cloud type other than AZURE, Create
fails with the validation error after the single lookup `GetVpcCloudTypeById`:
neither `CreateFirewallInstance` nor `GetFirewallInstance` is invoked, and the
record, its ID included, is left as it was. -/
theorem zone_validation_before_create {σ : Type} (client : Client σ) (s : σ)
    (d : FirewallData) (cloudType : Int)
    (h : (client.GetVpcCloudTypeById s d.vpc_id).2 = .ok cloudType)
    (hz : d.zone ≠ "") (hc : cloudType ≠ client.AZURE) :
    (resourceAviatrixFirewallInstanceCreate client s d).err = some (.errorf "'zone' attribute is only valid for AZURE") ∧
    (resourceAviatrixFirewallInstanceCreate client s d).calls = [Call.GetVpcCloudTypeById d.vpc_id] ∧
    (resourceAviatrixFirewallInstanceCreate client s d).d = d := by
  obtain ⟨h1, h2, h3⟩ := firewallCreate_zone_invalid client s d cloudType h hz hc
  exact ⟨h1, h3, h2⟩

theorem zone_validation_before_create_witness :
    (resourceAviatrixFirewallInstanceCreate (memClient 1 "i-1") {} fw1Zone).err
      = some (.errorf "'zone' attribute is only valid for AZURE") ∧
    (resourceAviatrixFirewallInstanceCreate (memClient 1 "i-1") {} fw1Zone).calls = [Call.GetVpcCloudTypeById fw1Zone.vpc_id] ∧
    (resourceAviatrixFirewallInstanceCreate (memClient 1 "i-1") {} fw1Zone).d = fw1Zone :=
  zone_validation_before_create (memClient 1 "i-1") {} fw1Zone 1 rfl (by decide) (by decide)

/-- C3 as stated fails: with zone `az-1` on a VPC whose cloud type is not AZURE,
Create returns the validation error, but the sequence of client operations is
not empty: `GetVpcCloudTypeById` has been invoked. -/
theorem zone_validation_no_remote_call_counterexample :
    fw1Zone.zone ≠ "" ∧
    (resourceAviatrixFirewallInstanceCreate (memClient 1 "i-1") {} fw1Zone).err
      = some (.errorf "'zone' attribute is only valid for AZURE") ∧
    (resourceAviatrixFirewallInstanceCreate (memClient 1 "i-1") {} fw1Zone).calls = [Call.GetVpcCloudTypeById "vpc-1"] ∧
    (resourceAviatrixFirewallInstanceCreate (memClient 1 "i-1") {} fw1Zone).calls ≠ [] := by
  refine ⟨by decide, rfl, rfl, ?_⟩
  intro h
  have h2 : (resourceAviatrixFirewallInstanceCreate (memClient 1 "i-1") {} fw1Zone).calls = [Call.GetVpcCloudTypeById "vpc-1"] :=
    rfl
  rw [h2] at h
  cases h

/-- C6 (as amended): when `CreateDeviceTransitGatewayAttachment`,
`GetVpcCloudTypeById` or `CreateFirewallInstance` fails, Create returns an error
and the record is exactly as before the call.  When the remote create has
succeeded and the lookup `GetFirewallInstance` of the trailing Read fails with
an error other than NotFound, Create returns an error and the record keeps the
ID assigned from the returned identifier (and `instance_id`, when it was unset,
holds that identifier too); every other field is as before. -/
theorem create_failure_local_state {σ : Type} (client : Client σ) (s : σ)
    (da : AttachmentData) (df : FirewallData) :
    (∀ e, (client.CreateDeviceTransitGatewayAttachment s
        (marshalDeviceTransitGatewayAttachmentInput da)).2 = some e →
      (resourceAviatrixDeviceTransitGatewayAttachmentCreate client s da).err ≠ none ∧ (resourceAviatrixDeviceTransitGatewayAttachmentCreate client s da).d = da) ∧
    (∀ e, (client.GetVpcCloudTypeById s df.vpc_id).2 = .error e →
      (resourceAviatrixFirewallInstanceCreate client s df).err ≠ none ∧ (resourceAviatrixFirewallInstanceCreate client s df).d = df) ∧
    (∀ cloudType e, (client.GetVpcCloudTypeById s df.vpc_id).2 = .ok cloudType →
      ¬ (df.zone ≠ "" ∧ cloudType ≠ client.AZURE) →
      (client.CreateFirewallInstance (client.GetVpcCloudTypeById s df.vpc_id).1
        (firewallInstanceRequest df)).2 = .error e →
      (resourceAviatrixFirewallInstanceCreate client s df).err ≠ none ∧ (resourceAviatrixFirewallInstanceCreate client s df).d = df) ∧
    (∀ cloudType instanceID e, (client.GetVpcCloudTypeById s df.vpc_id).2 = .ok cloudType →
      ¬ (df.zone ≠ "" ∧ cloudType ≠ client.AZURE) →
      (client.CreateFirewallInstance (client.GetVpcCloudTypeById s df.vpc_id).1
        (firewallInstanceRequest df)).2 = .ok instanceID →
      (client.GetFirewallInstance
        (client.CreateFirewallInstance (client.GetVpcCloudTypeById s df.vpc_id).1
          (firewallInstanceRequest df)).1
        { InstanceID := if df.instance_id = "" then instanceID else df.instance_id }).2
          = .error e →
      e ≠ GoError.ErrNotFound →
      (resourceAviatrixFirewallInstanceCreate client s df).err ≠ none ∧
      (resourceAviatrixFirewallInstanceCreate client s df).d = { df with
        id := instanceID
        instance_id := if df.instance_id = "" then instanceID else df.instance_id }) := by
  refine ⟨?_, ?_, ?_, ?_⟩
  · intro e h
    rw [attachmentCreate_error client s da e h]
    exact ⟨by simp, rfl⟩
  · intro e h
    obtain ⟨h1, h2, _⟩ := firewallCreate_vpc_error client s df e h
    exact ⟨h1, h2⟩
  · intro cloudType e h hv hcr
    obtain ⟨h1, h2, _⟩ := firewallCreate_create_error client s df cloudType e h hv hcr
    exact ⟨h1, h2⟩
  · intro cloudType instanceID e h hv hcr hget hne
    obtain ⟨h1, h2, _⟩ := firewallCreate_created client s df cloudType instanceID h hv hcr
    obtain ⟨h3, h4⟩ := firewallRead_error client _ (df.SetId instanceID) e hget
    rw [h1, h2, h3, h4]
    simp only [hne, if_false]
    refine ⟨by simp, ?_⟩
    by_cases hi : df.instance_id = "" <;> simp [hi, FirewallData.SetId]

theorem create_failure_local_state_witness :
    (resourceAviatrixFirewallInstanceCreate (fixedClient none (.error .ErrNotFound) (.ok 1) (.ok "i-1")
        (.error (.remote "timeout"))) () fw1).err ≠ none ∧
    (resourceAviatrixFirewallInstanceCreate (fixedClient none (.error .ErrNotFound) (.ok 1) (.ok "i-1")
        (.error (.remote "timeout"))) () fw1).d
      = { fw1 with id := "i-1", instance_id := if fw1.instance_id = "" then "i-1"
            else fw1.instance_id } :=
  (create_failure_local_state (fixedClient none (.error .ErrNotFound) (.ok 1) (.ok "i-1")
      (.error (.remote "timeout"))) () conn1 fw1).2.2.2 1 "i-1" (.remote "timeout") rfl
    (by decide) rfl rfl (by decide)

/-- C6 as stated fails: the remote create succeeds with `i-1`, the lookup that
follows fails with an error other than NotFound, Create returns an error, and
the record's ID is `i-1` although it was empty before the call. -/
theorem create_failure_state_counterexample :
    (fixedClient none (.error .ErrNotFound) (.ok 1) (.ok "i-1")
        (.error (.remote "timeout"))).GetFirewallInstance () { InstanceID := "i-1" }
      = ((), .error (.remote "timeout")) ∧
    (resourceAviatrixFirewallInstanceCreate (fixedClient none (.error .ErrNotFound) (.ok 1) (.ok "i-1")
        (.error (.remote "timeout"))) () fw1).err
      = some (.wrap "couldn't find Firewall Instance" (.remote "timeout")) ∧
    fw1.id = "" ∧
    (resourceAviatrixFirewallInstanceCreate (fixedClient none (.error .ErrNotFound) (.ok 1) (.ok "i-1")
        (.error (.remote "timeout"))) () fw1).d.id = "i-1" ∧
    (resourceAviatrixFirewallInstanceCreate (fixedClient none (.error .ErrNotFound) (.ok 1) (.ok "i-1")
        (.error (.remote "timeout"))) () fw1).d ≠ fw1 := by
  refine ⟨rfl, rfl, rfl, rfl, ?_⟩
  intro h
  have h2 := congrArg FirewallData.id h
  exact absurd h2 (by decide)

/-- C7 (as amended): whenever the firewall-instance Create returns without
error, `GetVpcCloudTypeById` and `CreateFirewallInstance` have succeeded, and
either the trailing lookup `GetFirewallInstance` found the object and the
record's ID equals the identifier returned by `CreateFirewallInstance`, or the
lookup reported NotFound and the ID is empty. -/
theorem create_success_identifier {σ : Type} (client : Client σ) (s : σ) (d : FirewallData)
    (h : (resourceAviatrixFirewallInstanceCreate client s d).err = none) :
    ∃ cloudType instanceID,
      (client.GetVpcCloudTypeById s d.vpc_id).2 = .ok cloudType ∧
      (client.CreateFirewallInstance (client.GetVpcCloudTypeById s d.vpc_id).1
        (firewallInstanceRequest d)).2 = .ok instanceID ∧
      (((∃ fI, (client.GetFirewallInstance
          (client.CreateFirewallInstance (client.GetVpcCloudTypeById s d.vpc_id).1
            (firewallInstanceRequest d)).1
          { InstanceID := if d.instance_id = "" then instanceID else d.instance_id }).2
            = .ok fI) ∧
        (resourceAviatrixFirewallInstanceCreate client s d).d.id = instanceID) ∨
       ((client.GetFirewallInstance
          (client.CreateFirewallInstance (client.GetVpcCloudTypeById s d.vpc_id).1
            (firewallInstanceRequest d)).1
          { InstanceID := if d.instance_id = "" then instanceID else d.instance_id }).2
            = .error GoError.ErrNotFound ∧
        (resourceAviatrixFirewallInstanceCreate client s d).d.id = "")) :=
  firewallCreate_success client s d h

theorem create_success_identifier_witness :
    ∃ cloudType instanceID,
      ((memClient 1 "i-1").GetVpcCloudTypeById {} fw1.vpc_id).2 = .ok cloudType ∧
      ((memClient 1 "i-1").CreateFirewallInstance
        ((memClient 1 "i-1").GetVpcCloudTypeById {} fw1.vpc_id).1
        (firewallInstanceRequest fw1)).2 = .ok instanceID ∧
      (((∃ fI, ((memClient 1 "i-1").GetFirewallInstance
          ((memClient 1 "i-1").CreateFirewallInstance
            ((memClient 1 "i-1").GetVpcCloudTypeById {} fw1.vpc_id).1
            (firewallInstanceRequest fw1)).1
          { InstanceID := if fw1.instance_id = "" then instanceID else fw1.instance_id }).2
            = .ok fI) ∧
        (resourceAviatrixFirewallInstanceCreate (memClient 1 "i-1") {} fw1).d.id = instanceID) ∨
       (((memClient 1 "i-1").GetFirewallInstance
          ((memClient 1 "i-1").CreateFirewallInstance
            ((memClient 1 "i-1").GetVpcCloudTypeById {} fw1.vpc_id).1
            (firewallInstanceRequest fw1)).1
          { InstanceID := if fw1.instance_id = "" then instanceID else fw1.instance_id }).2
            = .error GoError.ErrNotFound ∧
        (resourceAviatrixFirewallInstanceCreate (memClient 1 "i-1") {} fw1).d.id = "")) :=
  create_success_identifier (memClient 1 "i-1") {} fw1 rfl

/-- C7 as stated fails: `CreateFirewallInstance` returns the identifier `i-1`,
the lookup that follows reports NotFound, Create returns without error, and the
record's ID is empty, not `i-1`. -/
theorem create_success_identifier_counterexample :
    ((fixedClient none (.error .ErrNotFound) (.ok 1) (.ok "i-1")
        (.error .ErrNotFound)).CreateFirewallInstance () (firewallInstanceRequest fw1)).2
      = .ok "i-1" ∧
    (resourceAviatrixFirewallInstanceCreate (fixedClient none (.error .ErrNotFound) (.ok 1) (.ok "i-1")
        (.error .ErrNotFound)) () fw1).err = none ∧
    (resourceAviatrixFirewallInstanceCreate (fixedClient none (.error .ErrNotFound) (.ok 1) (.ok "i-1")
        (.error .ErrNotFound)) () fw1).d.id = "" ∧
    (resourceAviatrixFirewallInstanceCreate (fixedClient none (.error .ErrNotFound) (.ok 1) (.ok "i-1")
        (.error .ErrNotFound)) () fw1).d.id ≠ "i-1" := by
  refine ⟨rfl, rfl, rfl, by decide⟩

/-- C8, evaluated at an import: the record holds only the ID `i-1`, the remote
object carries the key name `key1`; Read returns no error and copies the other
fields, but `key_name` is still empty afterwards. -/
theorem import_read_key_name :
    (resourceAviatrixFirewallInstanceRead (fixedClient none (.error .ErrNotFound) (.ok 1) (.ok "i-1")
        (.ok { firewallInstanceRequest fw1 with InstanceID := "i-1" })) ()
        (FirewallData.imported "i-1")).err = none ∧
    (resourceAviatrixFirewallInstanceRead (fixedClient none (.error .ErrNotFound) (.ok 1) (.ok "i-1")
        (.ok { firewallInstanceRequest fw1 with InstanceID := "i-1" })) ()
        (FirewallData.imported "i-1")).d.vpc_id = "vpc-1" ∧
    (resourceAviatrixFirewallInstanceRead (fixedClient none (.error .ErrNotFound) (.ok 1) (.ok "i-1")
        (.ok { firewallInstanceRequest fw1 with InstanceID := "i-1" })) ()
        (FirewallData.imported "i-1")).d.instance_id = "i-1" ∧
    ({ firewallInstanceRequest fw1 with InstanceID := "i-1" } : FirewallInstance).KeyName
      = "key1" ∧
    (resourceAviatrixFirewallInstanceRead (fixedClient none (.error .ErrNotFound) (.ok 1) (.ok "i-1")
        (.ok { firewallInstanceRequest fw1 with InstanceID := "i-1" })) ()
        (FirewallData.imported "i-1")).d.key_name = "" := by
  refine ⟨rfl, rfl, rfl, rfl, rfl⟩

/-- C9 (as amended): against a client that reports the cloud type of the VPC,
accepts the request passed to `CreateFirewallInstance` and returns that request,
with the assigned instance identifier, from `GetFirewallInstance`, Create
succeeds for every configuration that is valid (no zone, or a zone on an AZURE
VPC; `instance_id` unset) and leaves `vpc_id`, `firenet_gw_name`,
`firewall_name`, `firewall_image`, `firewall_size`, `firewall_image_version`,
`key_name`, `iam_role`, `bootstrap_bucket_name` and `username` equal to their
input values; `egress_subnet` and `management_subnet` equal their input values
when the zone is empty and hold the zone-encoded text sent to the client when a
zone is given. -/
theorem firewall_create_roundtrip {σ : Type} (client : Client σ) (s : σ) (d : FirewallData)
    (cloudType : Int) (instanceID : String)
    (hvpc : (client.GetVpcCloudTypeById s d.vpc_id).2 = .ok cloudType)
    (hvalid : d.zone = "" ∨ cloudType = client.AZURE)
    (hinst : d.instance_id = "")
    (hcr : (client.CreateFirewallInstance (client.GetVpcCloudTypeById s d.vpc_id).1
      (firewallInstanceRequest d)).2 = .ok instanceID)
    (hget : (client.GetFirewallInstance
      (client.CreateFirewallInstance (client.GetVpcCloudTypeById s d.vpc_id).1
        (firewallInstanceRequest d)).1 { InstanceID := instanceID }).2
        = .ok { firewallInstanceRequest d with InstanceID := instanceID }) :
    (resourceAviatrixFirewallInstanceCreate client s d).err = none ∧
    (resourceAviatrixFirewallInstanceCreate client s d).d.id = instanceID ∧
    (resourceAviatrixFirewallInstanceCreate client s d).d.vpc_id = d.vpc_id ∧
    (resourceAviatrixFirewallInstanceCreate client s d).d.firenet_gw_name = d.firenet_gw_name ∧
    (resourceAviatrixFirewallInstanceCreate client s d).d.firewall_name = d.firewall_name ∧
    (resourceAviatrixFirewallInstanceCreate client s d).d.firewall_image = d.firewall_image ∧
    (resourceAviatrixFirewallInstanceCreate client s d).d.firewall_size = d.firewall_size ∧
    (resourceAviatrixFirewallInstanceCreate client s d).d.firewall_image_version = d.firewall_image_version ∧
    (resourceAviatrixFirewallInstanceCreate client s d).d.key_name = d.key_name ∧
    (resourceAviatrixFirewallInstanceCreate client s d).d.iam_role = d.iam_role ∧
    (resourceAviatrixFirewallInstanceCreate client s d).d.bootstrap_bucket_name = d.bootstrap_bucket_name ∧
    (resourceAviatrixFirewallInstanceCreate client s d).d.username = d.username ∧
    (d.zone = "" →
      (resourceAviatrixFirewallInstanceCreate client s d).d.egress_subnet = d.egress_subnet ∧
      (resourceAviatrixFirewallInstanceCreate client s d).d.management_subnet = d.management_subnet) ∧
    (d.zone ≠ "" →
      (resourceAviatrixFirewallInstanceCreate client s d).d.egress_subnet = d.egress_subnet ++ "~~" ++ d.zone ++ "~~" ∧
      (resourceAviatrixFirewallInstanceCreate client s d).d.management_subnet = d.management_subnet ++ "~~" ++ d.zone ++ "~~") := by
  have hv : ¬ (d.zone ≠ "" ∧ cloudType ≠ client.AZURE) := by
    rintro ⟨h1, h2⟩
    rcases hvalid with h | h
    · exact h1 h
    · exact h2 h
  obtain ⟨h1, h2, _⟩ := firewallCreate_created client s d cloudType instanceID hvpc hv hcr
  have hkey : (if (d.SetId instanceID).instance_id = "" then (d.SetId instanceID).id
      else (d.SetId instanceID).instance_id) = instanceID := by
    simp [FirewallData.SetId, hinst]
  have hget2 := hget
  rw [← hkey] at hget2
  obtain ⟨h3, h4⟩ := firewallRead_ok client _ (d.SetId instanceID) _ hget2
  rw [h1, h2, h3, h4]
  simp only [firewallReadFields, firewallInstanceRequest, FirewallData.SetId, hinst,
    decide_True, if_true]
  refine ⟨trivial, trivial, trivial, trivial, trivial, trivial, trivial,
    ?_, ?_, ?_, ?_, ?_, ?_, ?_⟩
  · by_cases hx : d.firewall_image_version = "" <;> simp [hx]
  · by_cases hx : d.key_name = "" <;> simp [hx]
  · by_cases hx : d.iam_role = "" <;> simp [hx]
  · by_cases hx : d.bootstrap_bucket_name = "" <;> simp [hx]
  · by_cases hx : d.username = "" <;> simp [hx]
  · intro hz
    simp [hz]
  · intro hz
    simp [hz]

theorem firewall_create_roundtrip_witness :
    (resourceAviatrixFirewallInstanceCreate (memClient 8 "i-1") {} fw1Zone).err = none ∧
    (resourceAviatrixFirewallInstanceCreate (memClient 8 "i-1") {} fw1Zone).d.id = "i-1" ∧
    (resourceAviatrixFirewallInstanceCreate (memClient 8 "i-1") {} fw1Zone).d.vpc_id = fw1Zone.vpc_id ∧
    (resourceAviatrixFirewallInstanceCreate (memClient 8 "i-1") {} fw1Zone).d.firenet_gw_name = fw1Zone.firenet_gw_name ∧
    (resourceAviatrixFirewallInstanceCreate (memClient 8 "i-1") {} fw1Zone).d.firewall_name = fw1Zone.firewall_name ∧
    (resourceAviatrixFirewallInstanceCreate (memClient 8 "i-1") {} fw1Zone).d.firewall_image = fw1Zone.firewall_image ∧
    (resourceAviatrixFirewallInstanceCreate (memClient 8 "i-1") {} fw1Zone).d.firewall_size = fw1Zone.firewall_size ∧
    (resourceAviatrixFirewallInstanceCreate (memClient 8 "i-1") {} fw1Zone).d.firewall_image_version
      = fw1Zone.firewall_image_version ∧
    (resourceAviatrixFirewallInstanceCreate (memClient 8 "i-1") {} fw1Zone).d.key_name = fw1Zone.key_name ∧
    (resourceAviatrixFirewallInstanceCreate (memClient 8 "i-1") {} fw1Zone).d.iam_role = fw1Zone.iam_role ∧
    (resourceAviatrixFirewallInstanceCreate (memClient 8 "i-1") {} fw1Zone).d.bootstrap_bucket_name
      = fw1Zone.bootstrap_bucket_name ∧
    (resourceAviatrixFirewallInstanceCreate (memClient 8 "i-1") {} fw1Zone).d.username = fw1Zone.username ∧
    (fw1Zone.zone = "" →
      (resourceAviatrixFirewallInstanceCreate (memClient 8 "i-1") {} fw1Zone).d.egress_subnet = fw1Zone.egress_subnet ∧
      (resourceAviatrixFirewallInstanceCreate (memClient 8 "i-1") {} fw1Zone).d.management_subnet = fw1Zone.management_subnet) ∧
    (fw1Zone.zone ≠ "" →
      (resourceAviatrixFirewallInstanceCreate (memClient 8 "i-1") {} fw1Zone).d.egress_subnet
        = fw1Zone.egress_subnet ++ "~~" ++ fw1Zone.zone ++ "~~" ∧
      (resourceAviatrixFirewallInstanceCreate (memClient 8 "i-1") {} fw1Zone).d.management_subnet
        = fw1Zone.management_subnet ++ "~~" ++ fw1Zone.zone ++ "~~") :=
  firewall_create_roundtrip (memClient 8 "i-1") {} fw1Zone 8 "i-1" rfl (Or.inr rfl) rfl rfl rfl

/-- C9 as stated fails: with zone `az-1` on an AZURE VPC and a client that
returns the stored request, Create succeeds, but `egress_subnet` and
`management_subnet` hold the zone-encoded text, not their input values. -/
theorem firewall_create_roundtrip_counterexample :
    (memClient 8 "i-1").GetVpcCloudTypeById {} fw1Zone.vpc_id
      = ({}, .ok (memClient 8 "i-1").AZURE) ∧
    (resourceAviatrixFirewallInstanceCreate (memClient 8 "i-1") {} fw1Zone).err = none ∧
    fw1Zone.egress_subnet = "10.0.1.0/24" ∧
    (resourceAviatrixFirewallInstanceCreate (memClient 8 "i-1") {} fw1Zone).d.egress_subnet = "10.0.1.0/24~~az-1~~" ∧
    (resourceAviatrixFirewallInstanceCreate (memClient 8 "i-1") {} fw1Zone).d.egress_subnet ≠ fw1Zone.egress_subnet ∧
    (resourceAviatrixFirewallInstanceCreate (memClient 8 "i-1") {} fw1Zone).d.management_subnet ≠ fw1Zone.management_subnet := by
  refine ⟨rfl, rfl, rfl, ?_, ?_, ?_⟩ <;> decide

/-- C10 (as amended): in every record state reachable by an import, a successful
Create and successful non-absent Reads, the key Read passes to the client
(`ConnectionName` for the attachment, `InstanceID` for the firewall instance) is
the record's ID, and so is the key Delete passes (`connection_name`; `InstanceID`
next to the parent `vpc_id`), except in the state of an import that no Read has
refreshed yet.  For the firewall instance this holds against a client whose
lookup returns an object bearing the instance identifier it was asked for. -/
theorem identifier_is_key {σ : Type} (client : Client σ) :
    (∀ (s : σ) (d : AttachmentData), AttachmentReachable client d →
      (resourceAviatrixDeviceTransitGatewayAttachmentRead client s d).calls
        = [Call.GetDeviceTransitGatewayAttachment { ConnectionName := d.id }] ∧
      (d = AttachmentData.imported d.id ∨
        (resourceAviatrixDeviceTransitGatewayAttachmentDelete client s d).calls = [Call.DeleteDeviceAttachment d.id])) ∧
    (KeyFaithful client → ∀ (s : σ) (d : FirewallData), FirewallReachable client d →
      (resourceAviatrixFirewallInstanceRead client s d).calls = [Call.GetFirewallInstance { InstanceID := d.id }] ∧
      (d = FirewallData.imported d.id ∨
        (resourceAviatrixFirewallInstanceDelete client s d).calls
          = [Call.DeleteFirewallInstance { VpcID := d.vpc_id, InstanceID := d.id }])) := by
  constructor
  · intro s d hr
    have hinv := attachment_reachable_key client d hr
    rw [attachmentRead_calls, attachmentDelete_calls]
    rcases hinv with h | h
    · refine ⟨?_, Or.inl h⟩
      rw [h]
      rfl
    · refine ⟨?_, Or.inr (by rw [h])⟩
      by_cases hc : d.connection_name = ""
      · rw [if_pos hc]
      · rw [if_neg hc, h]
  · intro hk s d hr
    have hinv := firewall_reachable_key client hk d hr
    rw [firewallRead_calls, firewallDelete_calls]
    rcases hinv with h | h
    · refine ⟨?_, Or.inl h⟩
      rw [h]
      rfl
    · refine ⟨?_, Or.inr (by rw [h])⟩
      by_cases hc : d.instance_id = ""
      · rw [if_pos hc]
      · rw [if_neg hc, h]

theorem identifier_is_key_witness :
    ((resourceAviatrixDeviceTransitGatewayAttachmentRead (memClient 1 "i-1") {} (resourceAviatrixDeviceTransitGatewayAttachmentCreate (memClient 1 "i-1") {} conn1).d).calls
        = [Call.GetDeviceTransitGatewayAttachment
            { ConnectionName := (resourceAviatrixDeviceTransitGatewayAttachmentCreate (memClient 1 "i-1") {} conn1).d.id }] ∧
      ((resourceAviatrixDeviceTransitGatewayAttachmentCreate (memClient 1 "i-1") {} conn1).d
          = AttachmentData.imported (resourceAviatrixDeviceTransitGatewayAttachmentCreate (memClient 1 "i-1") {} conn1).d.id ∨
        (resourceAviatrixDeviceTransitGatewayAttachmentDelete (memClient 1 "i-1") {} (resourceAviatrixDeviceTransitGatewayAttachmentCreate (memClient 1 "i-1") {} conn1).d).calls
          = [Call.DeleteDeviceAttachment (resourceAviatrixDeviceTransitGatewayAttachmentCreate (memClient 1 "i-1") {} conn1).d.id])) ∧
    ((resourceAviatrixFirewallInstanceRead (memClient 1 "i-1") {} (resourceAviatrixFirewallInstanceCreate (memClient 1 "i-1") {} fw1).d).calls
        = [Call.GetFirewallInstance { InstanceID := (resourceAviatrixFirewallInstanceCreate (memClient 1 "i-1") {} fw1).d.id }] ∧
      ((resourceAviatrixFirewallInstanceCreate (memClient 1 "i-1") {} fw1).d
          = FirewallData.imported (resourceAviatrixFirewallInstanceCreate (memClient 1 "i-1") {} fw1).d.id ∨
        (resourceAviatrixFirewallInstanceDelete (memClient 1 "i-1") {} (resourceAviatrixFirewallInstanceCreate (memClient 1 "i-1") {} fw1).d).calls
          = [Call.DeleteFirewallInstance
              { VpcID := (resourceAviatrixFirewallInstanceCreate (memClient 1 "i-1") {} fw1).d.vpc_id,
                InstanceID := (resourceAviatrixFirewallInstanceCreate (memClient 1 "i-1") {} fw1).d.id }])) :=
  ⟨(identifier_is_key (memClient 1 "i-1")).1 {} _
      (AttachmentReachable.created {} conn1 rfl (by decide)),
   (identifier_is_key (memClient 1 "i-1")).2 (memClient_keyFaithful 1 "i-1") {} _
      (FirewallReachable.created {} fw1 rfl rfl (by decide))⟩

/-- C10 as stated fails.  In the state an import creates (ID set, fields empty)
Delete passes the empty `connection_name`, respectively the empty `instance_id`
and `vpc_id`, not the ID.  And against a client whose lookup answers with an
object bearing another identifier (`i-2`), the state after a successful Create
has the ID `i-1` while the next Read asks for `i-2`. -/
theorem identifier_is_key_counterexample :
    (AttachmentReachable (memClient 1 "i-1") (AttachmentData.imported "conn1") ∧
      (AttachmentData.imported "conn1").id = "conn1" ∧
      (resourceAviatrixDeviceTransitGatewayAttachmentDelete (memClient 1 "i-1") {} (AttachmentData.imported "conn1")).calls
        = [Call.DeleteDeviceAttachment ""] ∧
      (resourceAviatrixDeviceTransitGatewayAttachmentDelete (memClient 1 "i-1") {} (AttachmentData.imported "conn1")).calls
        ≠ [Call.DeleteDeviceAttachment (AttachmentData.imported "conn1").id]) ∧
    (FirewallReachable (memClient 1 "i-1") (FirewallData.imported "i-1") ∧
      (FirewallData.imported "i-1").id = "i-1" ∧
      (resourceAviatrixFirewallInstanceDelete (memClient 1 "i-1") {} (FirewallData.imported "i-1")).calls
        = [Call.DeleteFirewallInstance { VpcID := "", InstanceID := "" }] ∧
      (resourceAviatrixFirewallInstanceDelete (memClient 1 "i-1") {} (FirewallData.imported "i-1")).calls
        ≠ [Call.DeleteFirewallInstance
            { VpcID := "", InstanceID := (FirewallData.imported "i-1").id }]) ∧
    (FirewallReachable
        (fixedClient none (.error .ErrNotFound) (.ok 1) (.ok "i-1")
          (.ok { InstanceID := "i-2" }))
        (resourceAviatrixFirewallInstanceCreate (fixedClient none (.error .ErrNotFound) (.ok 1) (.ok "i-1")
          (.ok { InstanceID := "i-2" })) () fw1).d ∧
      (resourceAviatrixFirewallInstanceCreate (fixedClient none (.error .ErrNotFound) (.ok 1) (.ok "i-1")
          (.ok { InstanceID := "i-2" })) () fw1).d.id = "i-1" ∧
      (resourceAviatrixFirewallInstanceRead (fixedClient none (.error .ErrNotFound) (.ok 1) (.ok "i-1")
          (.ok { InstanceID := "i-2" })) ()
        (resourceAviatrixFirewallInstanceCreate (fixedClient none (.error .ErrNotFound) (.ok 1) (.ok "i-1")
          (.ok { InstanceID := "i-2" })) () fw1).d).calls
        = [Call.GetFirewallInstance { InstanceID := "i-2" }]) :=
  ⟨⟨AttachmentReachable.imported "conn1", rfl, rfl, by decide⟩,
   ⟨FirewallReachable.imported "i-1", rfl, rfl, by decide⟩,
   ⟨FirewallReachable.created () fw1 rfl rfl (by decide), rfl, rfl⟩⟩

end Aviatrix
